import Mathlib

/-!
Verification of the Alya virtual machine core (register/flags primitives,
bytecode codec, execution handlers, segmented memory, stack and free-list
heap) against its natural-language specification.  Rust `u64`/`usize`
values are modelled as `Nat` with explicit `% 2 ^ 64` wrapping, `i64`
values as `Int` in `[-2^63, 2^63)`, fallible operations as `Except`, and
the generic `MemoryAccess` trait as a structure of operations.
-/

namespace Alya

/-! ## 64-bit helpers -/

/-- Sign re-interpretation of a `u64` bit pattern as an `i64`
(the Rust `as i64` cast). -/
def toSigned (a : Nat) : Int :=
  if a < 2 ^ 63 then (a : Int) else (a : Int) - 2 ^ 64

/-- Wrap an integer into the `i64` range (two's complement). -/
def wrap64 (z : Int) : Int :=
  (z + 2 ^ 63) % 2 ^ 64 - 2 ^ 63

/-- Rust `i64::overflowing_sub`: wrapped difference and whether the
mathematical difference left the `i64` range. -/
def i64OverflowingSub (x y : Int) : Int × Bool :=
  (wrap64 (x - y), decide (x - y < -(2 ^ 63) ∨ 2 ^ 63 ≤ x - y))

/-- Rust `u64::overflowing_add` on `Nat`-modelled 64-bit values. -/
def u64OverflowingAdd (a b : Nat) : Nat × Bool :=
  ((a + b) % 2 ^ 64, decide (2 ^ 64 ≤ a + b))

/-- Rust `u64::overflowing_sub` on `Nat`-modelled 64-bit values. -/
def u64OverflowingSub (a b : Nat) : Nat × Bool :=
  (if b ≤ a then a - b else a + 2 ^ 64 - b, decide (a < b))

/-- Rust `u64::overflowing_mul` on `Nat`-modelled 64-bit values. -/
def u64OverflowingMul (a b : Nat) : Nat × Bool :=
  (a * b % 2 ^ 64, decide (2 ^ 64 ≤ a * b))

/-- `u64::to_le_bytes`: the eight little-endian bytes of a 64-bit value. -/
def le8 (v : Nat) : List Nat :=
  [v % 256, v / 256 % 256, v / 256 ^ 2 % 256, v / 256 ^ 3 % 256,
   v / 256 ^ 4 % 256, v / 256 ^ 5 % 256, v / 256 ^ 6 % 256, v / 256 ^ 7 % 256]

/-- `u64::from_le_bytes`: recompose a 64-bit value from eight bytes. -/
def fromLE8 (b0 b1 b2 b3 b4 b5 b6 b7 : Nat) : Nat :=
  b0 + b1 * 256 + b2 * 256 ^ 2 + b3 * 256 ^ 3 +
  b4 * 256 ^ 4 + b5 * 256 ^ 5 + b6 * 256 ^ 6 + b7 * 256 ^ 7

theorem fromLE8_le8 (v : Nat) (h : v < 2 ^ 64) :
    fromLE8 (v % 256) (v / 256 % 256) (v / 256 ^ 2 % 256) (v / 256 ^ 3 % 256)
      (v / 256 ^ 4 % 256) (v / 256 ^ 5 % 256) (v / 256 ^ 6 % 256)
      (v / 256 ^ 7 % 256) = v := by
  unfold fromLE8
  omega

/-! ## Registers (`src/core/register.rs`) -/

/-- The registers of the Alya VM, each with a stable byte code. -/
inductive Register where
  | R0 | R1 | R2 | R3 | R4 | R5 | R6 | R7
  | R8 | R9 | R10 | R11 | R12 | R13 | R14 | R15
  | SP | BP | IP | FL
  deriving DecidableEq

/-- `Register::to_u8`. -/
def Register.toU8 : Register → Nat
  | .R0 => 0 | .R1 => 1 | .R2 => 2 | .R3 => 3
  | .R4 => 4 | .R5 => 5 | .R6 => 6 | .R7 => 7
  | .R8 => 8 | .R9 => 9 | .R10 => 10 | .R11 => 11
  | .R12 => 12 | .R13 => 13 | .R14 => 14 | .R15 => 15
  | .SP => 16 | .BP => 17 | .IP => 18 | .FL => 19

/-- `Register::from_u8`; `none` models `Err(RegisterError::InvalidCode)`. -/
def Register.fromU8 : Nat → Option Register
  | 0 => some .R0 | 1 => some .R1 | 2 => some .R2 | 3 => some .R3
  | 4 => some .R4 | 5 => some .R5 | 6 => some .R6 | 7 => some .R7
  | 8 => some .R8 | 9 => some .R9 | 10 => some .R10 | 11 => some .R11
  | 12 => some .R12 | 13 => some .R13 | 14 => some .R14 | 15 => some .R15
  | 16 => some .SP | 17 => some .BP | 18 => some .IP | 19 => some .FL
  | _ => none

theorem Register.fromU8_of_toU8 (r : Register) : Register.fromU8 r.toU8 = some r := by
  cases r <;> rfl

/-! ## Opcodes (`src/core/opcode.rs`) -/

/-- Bytecode operation codes. -/
inductive Opcode where
  | Halt | Nop
  | LoadImm | Move | Swap
  | Add | Sub | Mul | Div | Mod
  | AddAssign | SubAssign | MulAssign | DivAssign
  | And | Or | Xor | Not | Shl | Shr
  | Push | Pop | Peek
  | Load | Store | LoadIndexed | StoreIndexed | Alloc | Free | MemCopy | MemSet
  | Jump | JumpIfZero | JumpIfNotZero | JumpIfGt | JumpIfLt | JumpIfGe
  | JumpIfLe | JumpIfEq | JumpIfNe | JumpIfAbove | JumpIfBelow | JumpIfAe | JumpIfBe
  | Compare
  | Call | Return
  | Syscall
  | FAdd | FSub | FMul | FDiv | FSqrt | FAbs | FNeg | F2I | I2F | FCmp
  | PopCnt | Clz | Ctz | BSwap | RotL | RotR
  | Breakpoint | TraceOn | TraceOff
  deriving DecidableEq

/-- `Opcode::to_u8` (the `#[repr(u8)]` discriminants). -/
def Opcode.toU8 : Opcode → Nat
  | .Halt => 0x00 | .Nop => 0x01
  | .LoadImm => 0x10 | .Move => 0x11 | .Swap => 0x12
  | .Add => 0x20 | .Sub => 0x21 | .Mul => 0x22 | .Div => 0x23 | .Mod => 0x24
  | .AddAssign => 0x30 | .SubAssign => 0x31 | .MulAssign => 0x32 | .DivAssign => 0x33
  | .And => 0x40 | .Or => 0x41 | .Xor => 0x42 | .Not => 0x43 | .Shl => 0x44 | .Shr => 0x45
  | .Push => 0x50 | .Pop => 0x51 | .Peek => 0x52
  | .Load => 0x60 | .Store => 0x61 | .LoadIndexed => 0x62 | .StoreIndexed => 0x63
  | .Alloc => 0x64 | .Free => 0x65 | .MemCopy => 0x66 | .MemSet => 0x67
  | .Jump => 0x70 | .JumpIfZero => 0x71 | .JumpIfNotZero => 0x72
  | .JumpIfGt => 0x73 | .JumpIfLt => 0x74 | .JumpIfGe => 0x75 | .JumpIfLe => 0x76
  | .JumpIfEq => 0x77 | .JumpIfNe => 0x78
  | .JumpIfAbove => 0x49 | .JumpIfBelow => 0x4A | .JumpIfAe => 0x4B | .JumpIfBe => 0x4C
  | .Compare => 0x79
  | .Call => 0x80 | .Return => 0x81
  | .Syscall => 0x99
  | .FAdd => 0xA0 | .FSub => 0xA1 | .FMul => 0xA2 | .FDiv => 0xA3 | .FSqrt => 0xA4
  | .FAbs => 0xA5 | .FNeg => 0xA6 | .F2I => 0xA7 | .I2F => 0xA8 | .FCmp => 0xA9
  | .PopCnt => 0xB0 | .Clz => 0xB1 | .Ctz => 0xB2 | .BSwap => 0xB3
  | .RotL => 0xB4 | .RotR => 0xB5
  | .Breakpoint => 0xF1 | .TraceOn => 0xF2 | .TraceOff => 0xF3

/-- `Opcode::from_u8`; `none` models `Err(OpcodeError::Unknown)`. -/
def Opcode.fromU8 : Nat → Option Opcode
  | 0x00 => some .Halt | 0x01 => some .Nop
  | 0x10 => some .LoadImm | 0x11 => some .Move | 0x12 => some .Swap
  | 0x20 => some .Add | 0x21 => some .Sub | 0x22 => some .Mul
  | 0x23 => some .Div | 0x24 => some .Mod
  | 0x30 => some .AddAssign | 0x31 => some .SubAssign
  | 0x32 => some .MulAssign | 0x33 => some .DivAssign
  | 0x40 => some .And | 0x41 => some .Or | 0x42 => some .Xor
  | 0x43 => some .Not | 0x44 => some .Shl | 0x45 => some .Shr
  | 0x50 => some .Push | 0x51 => some .Pop | 0x52 => some .Peek
  | 0x60 => some .Load | 0x61 => some .Store
  | 0x62 => some .LoadIndexed | 0x63 => some .StoreIndexed
  | 0x64 => some .Alloc | 0x65 => some .Free
  | 0x66 => some .MemCopy | 0x67 => some .MemSet
  | 0x70 => some .Jump | 0x71 => some .JumpIfZero | 0x72 => some .JumpIfNotZero
  | 0x73 => some .JumpIfGt | 0x74 => some .JumpIfLt | 0x75 => some .JumpIfGe
  | 0x76 => some .JumpIfLe | 0x77 => some .JumpIfEq | 0x78 => some .JumpIfNe
  | 0x49 => some .JumpIfAbove | 0x4A => some .JumpIfBelow
  | 0x4B => some .JumpIfAe | 0x4C => some .JumpIfBe
  | 0x79 => some .Compare
  | 0x80 => some .Call | 0x81 => some .Return
  | 0x99 => some .Syscall
  | 0xA0 => some .FAdd | 0xA1 => some .FSub | 0xA2 => some .FMul
  | 0xA3 => some .FDiv | 0xA4 => some .FSqrt | 0xA5 => some .FAbs
  | 0xA6 => some .FNeg | 0xA7 => some .F2I | 0xA8 => some .I2F | 0xA9 => some .FCmp
  | 0xB0 => some .PopCnt | 0xB1 => some .Clz | 0xB2 => some .Ctz
  | 0xB3 => some .BSwap | 0xB4 => some .RotL | 0xB5 => some .RotR
  | 0xF1 => some .Breakpoint | 0xF2 => some .TraceOn | 0xF3 => some .TraceOff
  | _ => none

theorem Opcode.fromU8_of_toU8_opcode (op : Opcode) : Opcode.fromU8 op.toU8 = some op := by
  cases op <;> rfl

/-! ## Flags (`src/core/flags.rs`)

The snapshot's `Flag` enum defines `Zero = 0`, `Negative = 1`, `Carry = 2`.
The compare handler in `src/execution/handlers/control.rs` additionally
calls `set_overflow`/`overflow`, whose definition is not in the snapshot;
it is modelled from the spec below. -/

/-- Individual flag bits, with their bit positions. -/
inductive Flag where
  | Zero | Negative | Carry | Overflow
  deriving DecidableEq

/-- The discriminant used as the bit index (`flag as u64`).
`Overflow = 3` is modelled from the spec: the spec packs the four bits
Z, N, C, V into one word, continuing the enum's `Zero = 0`, `Negative = 1`,
`Carry = 2` numbering. -/
def Flag.idx : Flag → Nat
  | .Zero => 0
  | .Negative => 1
  | .Carry => 2
  | .Overflow => 3

/-- Flags register state: four boolean bits packed into one 64-bit word. -/
structure Flags where
  bits : Nat
  deriving DecidableEq

/-- `Flags::new()`. -/
def Flags.new : Flags := ⟨0⟩

/-- `Flags::set`: `bits |= mask` or `bits &= !mask` with `mask = 1 << idx`.
The `u64` complement `!mask` is `(2^64 - 1) ^^^ mask`. -/
def Flags.set (f : Flags) (flag : Flag) (value : Bool) : Flags :=
  let mask := 2 ^ flag.idx
  if value then ⟨f.bits ||| mask⟩ else ⟨f.bits &&& ((2 ^ 64 - 1) ^^^ mask)⟩

/-- `Flags::get`: `(bits & mask) != 0`. -/
def Flags.get (f : Flags) (flag : Flag) : Bool :=
  decide (f.bits &&& 2 ^ flag.idx ≠ 0)

def Flags.setZero (f : Flags) (v : Bool) : Flags := f.set .Zero v
def Flags.zero (f : Flags) : Bool := f.get .Zero
def Flags.setNegative (f : Flags) (v : Bool) : Flags := f.set .Negative v
def Flags.negative (f : Flags) : Bool := f.get .Negative
def Flags.setCarry (f : Flags) (v : Bool) : Flags := f.set .Carry v
def Flags.carry (f : Flags) : Bool := f.get .Carry

/-- Modelled from the spec: the Overflow (V) bit setter used by the compare
handler (`ctx.flags.set_overflow`), missing from the snapshot's `flags.rs`;
it stores bit `Flag.Overflow` by the same mask mechanism as the other three. -/
def Flags.setOverflow (f : Flags) (v : Bool) : Flags := f.set .Overflow v

/-- Modelled from the spec: the Overflow (V) bit getter used by the branch
handlers (`ctx.flags.overflow()`), missing from the snapshot's `flags.rs`. -/
def Flags.overflow (f : Flags) : Bool := f.get .Overflow

/-- `Flags::update_from_result`. -/
def Flags.updateFromResult (f : Flags) (result : Nat) (overflow : Bool) : Flags :=
  ((f.setZero (decide (result = 0))).setNegative (decide (toSigned result < 0))).setCarry
    overflow

theorem Flags.get_eq_testBit (f : Flags) (fl : Flag) :
    f.get fl = f.bits.testBit fl.idx := by
  unfold Flags.get
  rcases h : f.bits.testBit fl.idx with _ | _ <;>
    simp [Nat.and_two_pow, h, Nat.pow_eq_zero]

theorem Flag.idx_lt (fl : Flag) : fl.idx < 64 := by cases fl <;> simp [Flag.idx]

theorem Flag.idx_inj (fl fl' : Flag) (h : fl ≠ fl') : fl.idx ≠ fl'.idx := by
  cases fl <;> cases fl' <;> simp_all [Flag.idx]

theorem Flags.get_set_self (f : Flags) (fl : Flag) (v : Bool) :
    (f.set fl v).get fl = v := by
  cases v
  case true =>
    rw [show Flags.set f fl true = ⟨f.bits ||| 2 ^ fl.idx⟩ from rfl]
    rw [Flags.get_eq_testBit]
    rw [Nat.testBit_lor, Nat.testBit_two_pow_self, Bool.or_true]
  case false =>
    rw [show Flags.set f fl false = ⟨f.bits &&& ((2 ^ 64 - 1) ^^^ 2 ^ fl.idx)⟩ from rfl]
    rw [Flags.get_eq_testBit]
    rw [Nat.testBit_land, Nat.testBit_xor, Nat.testBit_two_pow_self,
      Nat.testBit_two_pow_sub_one, decide_eq_true (Flag.idx_lt fl)]
    simp

theorem Flags.get_set_other (f : Flags) (fl fl' : Flag) (v : Bool) (h : fl ≠ fl') :
    (f.set fl v).get fl' = f.get fl' := by
  have hne : fl.idx ≠ fl'.idx := Flag.idx_inj fl fl' h
  cases v
  case true =>
    rw [show Flags.set f fl true = ⟨f.bits ||| 2 ^ fl.idx⟩ from rfl]
    rw [Flags.get_eq_testBit, Flags.get_eq_testBit]
    rw [Nat.testBit_lor, Nat.testBit_two_pow, decide_eq_false hne, Bool.or_false]
  case false =>
    rw [show Flags.set f fl false = ⟨f.bits &&& ((2 ^ 64 - 1) ^^^ 2 ^ fl.idx)⟩ from rfl]
    rw [Flags.get_eq_testBit, Flags.get_eq_testBit]
    rw [Nat.testBit_land, Nat.testBit_xor, Nat.testBit_two_pow, decide_eq_false hne,
      Nat.testBit_two_pow_sub_one, decide_eq_true (Flag.idx_lt fl')]
    simp

/-! ## Errors (`src/error/types.rs` shape, messages abbreviated) -/

/-- VM error kinds.  Formatted message details are abbreviated to stable
strings; only the error kind and fixed message text matter to the claims. -/
inductive VmErr where
  | execution (msg : String)
  | divisionByZero
  | stack (msg : String)
  | memory (msg : String)
  deriving DecidableEq

/-! ## Instructions and the bytecode codec (`src/instruction/binary.rs`)

The variant set is the one the codec in `binary.rs` matches on. -/

set_option maxHeartbeats 1600000 in
/-- A single VM instruction with its operands. -/
inductive Instruction where
  | Halt
  | Nop
  | LoadImm (dest : Register) (value : Nat)
  | Move (dest src : Register)
  | Swap (r1 r2 : Register)
  | Add (dest left right : Register)
  | Sub (dest left right : Register)
  | Mul (dest left right : Register)
  | Div (dest left right : Register)
  | Mod (dest left right : Register)
  | AddAssign (dest src : Register)
  | SubAssign (dest src : Register)
  | MulAssign (dest src : Register)
  | DivAssign (dest src : Register)
  | And (dest left right : Register)
  | Or (dest left right : Register)
  | Xor (dest left right : Register)
  | Not (dest src : Register)
  | Shl (dest left right : Register)
  | Shr (dest left right : Register)
  | Push (src : Register)
  | Pop (dest : Register)
  | Peek (dest : Register)
  | Load (dest addrReg : Register)
  | Store (src addrReg : Register)
  | LoadIndexed (dest baseReg indexReg : Register)
  | StoreIndexed (src baseReg indexReg : Register)
  | Jump (target : Nat)
  | Compare (left right : Register)
  | JumpIfZero (target : Nat)
  | JumpIfNotZero (target : Nat)
  | JumpIfGt (target : Nat)
  | JumpIfLt (target : Nat)
  | JumpIfGe (target : Nat)
  | JumpIfLe (target : Nat)
  | JumpIfEq (target : Nat)
  | JumpIfNe (target : Nat)
  | JumpIfAbove (target : Nat)
  | JumpIfBelow (target : Nat)
  | JumpIfAe (target : Nat)
  | JumpIfBe (target : Nat)
  | Call (target : Nat)
  | Return
  | Syscall
  | Alloc (dest size : Register)
  | Free (ptr : Register)
  | MemCopy (dest src size : Register)
  | MemSet (dest value size : Register)
  deriving DecidableEq

/-- `Instruction::opcode`. -/
def Instruction.opcode : Instruction → Opcode
  | .Halt => .Halt
  | .Nop => .Nop
  | .LoadImm _ _ => .LoadImm
  | .Move _ _ => .Move
  | .Swap _ _ => .Swap
  | .Add _ _ _ => .Add
  | .Sub _ _ _ => .Sub
  | .Mul _ _ _ => .Mul
  | .Div _ _ _ => .Div
  | .Mod _ _ _ => .Mod
  | .AddAssign _ _ => .AddAssign
  | .SubAssign _ _ => .SubAssign
  | .MulAssign _ _ => .MulAssign
  | .DivAssign _ _ => .DivAssign
  | .And _ _ _ => .And
  | .Or _ _ _ => .Or
  | .Xor _ _ _ => .Xor
  | .Not _ _ => .Not
  | .Shl _ _ _ => .Shl
  | .Shr _ _ _ => .Shr
  | .Push _ => .Push
  | .Pop _ => .Pop
  | .Peek _ => .Peek
  | .Load _ _ => .Load
  | .Store _ _ => .Store
  | .LoadIndexed _ _ _ => .LoadIndexed
  | .StoreIndexed _ _ _ => .StoreIndexed
  | .Jump _ => .Jump
  | .Compare _ _ => .Compare
  | .JumpIfZero _ => .JumpIfZero
  | .JumpIfNotZero _ => .JumpIfNotZero
  | .JumpIfGt _ => .JumpIfGt
  | .JumpIfLt _ => .JumpIfLt
  | .JumpIfGe _ => .JumpIfGe
  | .JumpIfLe _ => .JumpIfLe
  | .JumpIfEq _ => .JumpIfEq
  | .JumpIfNe _ => .JumpIfNe
  | .JumpIfAbove _ => .JumpIfAbove
  | .JumpIfBelow _ => .JumpIfBelow
  | .JumpIfAe _ => .JumpIfAe
  | .JumpIfBe _ => .JumpIfBe
  | .Call _ => .Call
  | .Return => .Return
  | .Syscall => .Syscall
  | .Alloc _ _ => .Alloc
  | .Free _ => .Free
  | .MemCopy _ _ _ => .MemCopy
  | .MemSet _ _ _ => .MemSet

/-- `Instruction::encode`: one opcode byte, then operands in declaration
order — registers as one byte, immediates and targets as 8 little-endian
bytes (`(*target as u64).to_le_bytes()`). -/
def Instruction.encode (i : Instruction) : List Nat :=
  i.opcode.toU8 ::
  match i with
  | .Halt | .Nop | .Return | .Syscall => []
  | .LoadImm dest value => dest.toU8 :: le8 value
  | .Move dest src => [dest.toU8, src.toU8]
  | .Not dest src => [dest.toU8, src.toU8]
  | .Push src => [src.toU8]
  | .Pop dest => [dest.toU8]
  | .Peek dest => [dest.toU8]
  | .Swap r1 r2 => [r1.toU8, r2.toU8]
  | .Add dest left right => [dest.toU8, left.toU8, right.toU8]
  | .Sub dest left right => [dest.toU8, left.toU8, right.toU8]
  | .Mul dest left right => [dest.toU8, left.toU8, right.toU8]
  | .Div dest left right => [dest.toU8, left.toU8, right.toU8]
  | .Mod dest left right => [dest.toU8, left.toU8, right.toU8]
  | .And dest left right => [dest.toU8, left.toU8, right.toU8]
  | .Or dest left right => [dest.toU8, left.toU8, right.toU8]
  | .Xor dest left right => [dest.toU8, left.toU8, right.toU8]
  | .Shl dest left right => [dest.toU8, left.toU8, right.toU8]
  | .Shr dest left right => [dest.toU8, left.toU8, right.toU8]
  | .AddAssign dest src => [dest.toU8, src.toU8]
  | .SubAssign dest src => [dest.toU8, src.toU8]
  | .MulAssign dest src => [dest.toU8, src.toU8]
  | .DivAssign dest src => [dest.toU8, src.toU8]
  | .Load dest addrReg => [dest.toU8, addrReg.toU8]
  | .Store src addrReg => [src.toU8, addrReg.toU8]
  | .LoadIndexed dest baseReg indexReg => [dest.toU8, baseReg.toU8, indexReg.toU8]
  | .StoreIndexed src baseReg indexReg => [src.toU8, baseReg.toU8, indexReg.toU8]
  | .Jump target => le8 target
  | .JumpIfZero target => le8 target
  | .JumpIfNotZero target => le8 target
  | .JumpIfGt target => le8 target
  | .JumpIfLt target => le8 target
  | .JumpIfGe target => le8 target
  | .JumpIfLe target => le8 target
  | .JumpIfEq target => le8 target
  | .JumpIfNe target => le8 target
  | .JumpIfAbove target => le8 target
  | .JumpIfBelow target => le8 target
  | .JumpIfAe target => le8 target
  | .JumpIfBe target => le8 target
  | .Call target => le8 target
  | .Compare left right => [left.toU8, right.toU8]
  | .Alloc dest size => [dest.toU8, size.toU8]
  | .Free ptr => [ptr.toU8]
  | .MemCopy dest src size => [dest.toU8, src.toU8, size.toU8]
  | .MemSet dest value size => [dest.toU8, value.toU8, size.toU8]

/-- Decode one register operand byte. -/
def decodeReg (b : Nat) : Except VmErr Register :=
  match Register.fromU8 b with
  | some r => .ok r
  | none => .error (.execution "Invalid register code")

/-- `Instruction::decode`: consume bytes, return (instruction, bytes read).
Length guards (`bytes.len() < pos + k`) appear as list pattern matches that
require `k` further elements; extra trailing bytes are ignored as in the
source. -/
def Instruction.decode (bytes : List Nat) : Except VmErr (Instruction × Nat) :=
  match bytes with
  | [] => .error (.execution "Unexpected end of bytecode")
  | opByte :: rest =>
    match Opcode.fromU8 opByte with
    | none => .error (.execution "Invalid opcode")
    | some op =>
      match op with
      | .Halt => .ok (.Halt, 1)
      | .Nop => .ok (.Nop, 1)
      | .Return => .ok (.Return, 1)
      | .Syscall => .ok (.Syscall, 1)
      | .LoadImm =>
        match rest with
        | d :: b0 :: b1 :: b2 :: b3 :: b4 :: b5 :: b6 :: b7 :: _ => do
          let dest ← decodeReg d
          .ok (.LoadImm dest (fromLE8 b0 b1 b2 b3 b4 b5 b6 b7), 10)
        | _ => .error (.execution "Unexpected end of bytecode")
      | .Move =>
        match rest with
        | d :: s :: _ => do
          let dest ← decodeReg d
          let src ← decodeReg s
          .ok (.Move dest src, 3)
        | _ => .error (.execution "Unexpected end of bytecode")
      | .Swap =>
        match rest with
        | a :: b :: _ => do
          let r1 ← decodeReg a
          let r2 ← decodeReg b
          .ok (.Swap r1 r2, 3)
        | _ => .error (.execution "Unexpected end of bytecode")
      | .Add | .Sub | .Mul | .Div | .Mod | .And | .Or | .Xor | .Shl | .Shr =>
        match rest with
        | d :: l :: r :: _ => do
          let dest ← decodeReg d
          let left ← decodeReg l
          let right ← decodeReg r
          match op with
          | .Add => .ok (.Add dest left right, 4)
          | .Sub => .ok (.Sub dest left right, 4)
          | .Mul => .ok (.Mul dest left right, 4)
          | .Div => .ok (.Div dest left right, 4)
          | .Mod => .ok (.Mod dest left right, 4)
          | .And => .ok (.And dest left right, 4)
          | .Or => .ok (.Or dest left right, 4)
          | .Xor => .ok (.Xor dest left right, 4)
          | .Shl => .ok (.Shl dest left right, 4)
          | _ => .ok (.Shr dest left right, 4)
        | _ => .error (.execution "Unexpected end of bytecode")
      | .AddAssign | .SubAssign | .MulAssign | .DivAssign =>
        match rest with
        | d :: s :: _ => do
          let dest ← decodeReg d
          let src ← decodeReg s
          match op with
          | .AddAssign => .ok (.AddAssign dest src, 3)
          | .SubAssign => .ok (.SubAssign dest src, 3)
          | .MulAssign => .ok (.MulAssign dest src, 3)
          | _ => .ok (.DivAssign dest src, 3)
        | _ => .error (.execution "Unexpected end of bytecode")
      | .Not =>
        match rest with
        | d :: s :: _ => do
          let dest ← decodeReg d
          let src ← decodeReg s
          .ok (.Not dest src, 3)
        | _ => .error (.execution "Unexpected end of bytecode")
      | .Push =>
        match rest with
        | s :: _ => do
          let src ← decodeReg s
          .ok (.Push src, 2)
        | _ => .error (.execution "Unexpected end of bytecode")
      | .Pop =>
        match rest with
        | d :: _ => do
          let dest ← decodeReg d
          .ok (.Pop dest, 2)
        | _ => .error (.execution "Unexpected end of bytecode")
      | .Peek =>
        match rest with
        | d :: _ => do
          let dest ← decodeReg d
          .ok (.Peek dest, 2)
        | _ => .error (.execution "Unexpected end of bytecode")
      | .Load =>
        match rest with
        | d :: a :: _ => do
          let dest ← decodeReg d
          let addrReg ← decodeReg a
          .ok (.Load dest addrReg, 3)
        | _ => .error (.execution "Unexpected end of bytecode")
      | .Store =>
        match rest with
        | s :: a :: _ => do
          let src ← decodeReg s
          let addrReg ← decodeReg a
          .ok (.Store src addrReg, 3)
        | _ => .error (.execution "Unexpected end of bytecode")
      | .LoadIndexed =>
        match rest with
        | d :: b :: i :: _ => do
          let dest ← decodeReg d
          let baseReg ← decodeReg b
          let indexReg ← decodeReg i
          .ok (.LoadIndexed dest baseReg indexReg, 4)
        | _ => .error (.execution "Unexpected end of bytecode")
      | .StoreIndexed =>
        match rest with
        | s :: b :: i :: _ => do
          let src ← decodeReg s
          let baseReg ← decodeReg b
          let indexReg ← decodeReg i
          .ok (.StoreIndexed src baseReg indexReg, 4)
        | _ => .error (.execution "Unexpected end of bytecode")
      | .Jump | .JumpIfZero | .JumpIfNotZero | .JumpIfGt | .JumpIfLt
      | .JumpIfGe | .JumpIfLe | .JumpIfEq | .JumpIfNe | .JumpIfAbove
      | .JumpIfBelow | .JumpIfAe | .JumpIfBe | .Call =>
        match rest with
        | b0 :: b1 :: b2 :: b3 :: b4 :: b5 :: b6 :: b7 :: _ =>
          let target := fromLE8 b0 b1 b2 b3 b4 b5 b6 b7
          match op with
          | .Jump => .ok (.Jump target, 9)
          | .JumpIfZero => .ok (.JumpIfZero target, 9)
          | .JumpIfNotZero => .ok (.JumpIfNotZero target, 9)
          | .JumpIfGt => .ok (.JumpIfGt target, 9)
          | .JumpIfLt => .ok (.JumpIfLt target, 9)
          | .JumpIfGe => .ok (.JumpIfGe target, 9)
          | .JumpIfLe => .ok (.JumpIfLe target, 9)
          | .JumpIfEq => .ok (.JumpIfEq target, 9)
          | .JumpIfNe => .ok (.JumpIfNe target, 9)
          | .JumpIfAbove => .ok (.JumpIfAbove target, 9)
          | .JumpIfBelow => .ok (.JumpIfBelow target, 9)
          | .JumpIfAe => .ok (.JumpIfAe target, 9)
          | .JumpIfBe => .ok (.JumpIfBe target, 9)
          | _ => .ok (.Call target, 9)
        | _ => .error (.execution "Unexpected end of bytecode")
      | .Compare =>
        match rest with
        | l :: r :: _ => do
          let left ← decodeReg l
          let right ← decodeReg r
          .ok (.Compare left right, 3)
        | _ => .error (.execution "Unexpected end of bytecode")
      | .Alloc =>
        match rest with
        | d :: s :: _ => do
          let dest ← decodeReg d
          let size ← decodeReg s
          .ok (.Alloc dest size, 3)
        | _ => .error (.execution "Unexpected end of bytecode")
      | .Free =>
        match rest with
        | p :: _ => do
          let ptr ← decodeReg p
          .ok (.Free ptr, 2)
        | _ => .error (.execution "Unexpected end of bytecode")
      | .MemCopy =>
        match rest with
        | d :: s :: n :: _ => do
          let dest ← decodeReg d
          let src ← decodeReg s
          let size ← decodeReg n
          .ok (.MemCopy dest src size, 4)
        | _ => .error (.execution "Unexpected end of bytecode")
      | .MemSet =>
        match rest with
        | d :: v :: n :: _ => do
          let dest ← decodeReg d
          let value ← decodeReg v
          let size ← decodeReg n
          .ok (.MemSet dest value size, 4)
        | _ => .error (.execution "Unexpected end of bytecode")
      | _ => .error (.execution "Unsupported opcode for decoding")

/-- Well-formedness of an instruction's numeric operands: immediates are
`u64` values and branch targets are `usize` values, so both fit 64 bits. -/
def Instruction.wf : Instruction → Prop
  | .LoadImm _ value => value < 2 ^ 64
  | .Jump target | .JumpIfZero target | .JumpIfNotZero target
  | .JumpIfGt target | .JumpIfLt target | .JumpIfGe target | .JumpIfLe target
  | .JumpIfEq target | .JumpIfNe target | .JumpIfAbove target
  | .JumpIfBelow target | .JumpIfAe target | .JumpIfBe target
  | .Call target => target < 2 ^ 64
  | _ => True

theorem decodeReg_toU8 (r : Register) : decodeReg r.toU8 = .ok r := by
  unfold decodeReg
  rw [Register.fromU8_of_toU8]

theorem exceptOkBind {ε α β : Type} (a : α) (f : α → Except ε β) :
    ((Except.ok a : Except ε α) >>= f) = f a := rfl

theorem fromLE8_le8Lit (v : Nat) (h : v < 18446744073709551616) :
    fromLE8 (v % 256) (v / 256 % 256) (v / 65536 % 256) (v / 16777216 % 256)
      (v / 4294967296 % 256) (v / 1099511627776 % 256)
      (v / 281474976710656 % 256) (v / 72057594037927936 % 256) = v := by
  unfold fromLE8
  omega

set_option maxHeartbeats 3200000 in
/-- C1: for every instruction variant the codec defines, decoding the byte
sequence produced by encoding yields the same instruction together with the
encoded length: `decode (encode I) = (I, (encode I).len)`. -/
theorem instruction_decode_encode (i : Instruction) (h : i.wf) :
    Instruction.decode i.encode = .ok (i, i.encode.length) := by
  cases i <;>
    simp_all [Instruction.encode, Instruction.decode, Instruction.opcode,
      Instruction.wf, Opcode.toU8, Opcode.fromU8, decodeReg_toU8, le8,
      exceptOkBind, fromLE8_le8Lit]

/-- Witness for C1 at the concrete instruction `LoadImm R0 42`. -/
theorem instruction_decode_encode_witness :
    (Instruction.LoadImm .R0 42).wf ∧
    Instruction.decode (Instruction.LoadImm .R0 42).encode =
      .ok (Instruction.LoadImm .R0 42, (Instruction.LoadImm .R0 42).encode.length) :=
  ⟨by simp [Instruction.wf],
   instruction_decode_encode (Instruction.LoadImm .R0 42) (by simp [Instruction.wf])⟩

/-! ## Execution context (`src/execution/context.rs`)

The register file is an array indexed by `Register::to_u8()`; since that
code is injective and all accesses go through `get_reg`/`set_reg`, it is
modelled as a function `Register → Nat`.  The Rust `Vec` call stack pushes
and pops at the back; it is modelled as a list pushing and popping at the
head, the same stack discipline. -/

structure ExecutionContext where
  registers : Register → Nat
  flags : Flags
  pc : Nat
  halted : Bool
  callStack : List Nat
  trace : Bool

/-- `ExecutionContext::new` / `reset`: zero registers, cleared flags,
`pc = 0`, not halted, empty call stack, tracing off. -/
def ExecutionContext.new : ExecutionContext :=
  ⟨fun _ => 0, Flags.new, 0, false, [], false⟩

/-- `ExecutionContext::get_reg`. -/
def ExecutionContext.getReg (ctx : ExecutionContext) (r : Register) : Nat :=
  ctx.registers r

/-- `ExecutionContext::set_reg`. -/
def ExecutionContext.setReg (ctx : ExecutionContext) (r : Register) (v : Nat) :
    ExecutionContext :=
  {ctx with registers := fun r' => if r' = r then v else ctx.registers r'}

/-! ## Control-flow handlers (`src/execution/handlers/control.rs`) -/

/-- `handle_compare`: Z from unsigned equality, C from unsigned borrow,
N and V from `i64` overflowing subtraction. -/
def handleCompare (ctx : ExecutionContext) (left right : Register) :
    ExecutionContext :=
  let uA := ctx.getReg left
  let uB := ctx.getReg right
  let sA := toSigned uA
  let sB := toSigned uB
  let f1 := ctx.flags.setZero (decide (uA = uB))
  let f2 := f1.setCarry (decide (uA < uB))
  let dv := i64OverflowingSub sA sB
  let f3 := f2.setNegative (decide (dv.1 < 0))
  let f4 := f3.setOverflow dv.2
  {ctx with flags := f4}

def handleJump (ctx : ExecutionContext) (target : Nat) : ExecutionContext :=
  {ctx with pc := target}

def handleJumpIfZero (ctx : ExecutionContext) (target : Nat) : ExecutionContext :=
  if ctx.flags.zero then {ctx with pc := target} else ctx

def handleJumpIfNotZero (ctx : ExecutionContext) (target : Nat) : ExecutionContext :=
  if !ctx.flags.zero then {ctx with pc := target} else ctx

/-- Signed greater: `!z && (n == v)`. -/
def handleJumpIfGt (ctx : ExecutionContext) (target : Nat) : ExecutionContext :=
  if !ctx.flags.zero && (ctx.flags.negative == ctx.flags.overflow) then
    {ctx with pc := target}
  else ctx

/-- Signed less: `n != v`. -/
def handleJumpIfLt (ctx : ExecutionContext) (target : Nat) : ExecutionContext :=
  if ctx.flags.negative != ctx.flags.overflow then {ctx with pc := target} else ctx

/-- Signed greater-or-equal: `n == v`. -/
def handleJumpIfGe (ctx : ExecutionContext) (target : Nat) : ExecutionContext :=
  if ctx.flags.negative == ctx.flags.overflow then {ctx with pc := target} else ctx

/-- Signed less-or-equal: `z || (n != v)`. -/
def handleJumpIfLe (ctx : ExecutionContext) (target : Nat) : ExecutionContext :=
  if ctx.flags.zero || (ctx.flags.negative != ctx.flags.overflow) then
    {ctx with pc := target}
  else ctx

def handleJumpIfEq (ctx : ExecutionContext) (target : Nat) : ExecutionContext :=
  if ctx.flags.zero then {ctx with pc := target} else ctx

def handleJumpIfNe (ctx : ExecutionContext) (target : Nat) : ExecutionContext :=
  if !ctx.flags.zero then {ctx with pc := target} else ctx

/-- Unsigned greater: `!c && !z`. -/
def handleJumpIfAbove (ctx : ExecutionContext) (target : Nat) : ExecutionContext :=
  if !ctx.flags.carry && !ctx.flags.zero then {ctx with pc := target} else ctx

/-- Unsigned less: `c`. -/
def handleJumpIfBelow (ctx : ExecutionContext) (target : Nat) : ExecutionContext :=
  if ctx.flags.carry then {ctx with pc := target} else ctx

/-- Unsigned greater-or-equal: `!c`. -/
def handleJumpIfAe (ctx : ExecutionContext) (target : Nat) : ExecutionContext :=
  if !ctx.flags.carry then {ctx with pc := target} else ctx

/-- Unsigned less-or-equal: `c || z`. -/
def handleJumpIfBe (ctx : ExecutionContext) (target : Nat) : ExecutionContext :=
  if ctx.flags.carry || ctx.flags.zero then {ctx with pc := target} else ctx

/-- `MAX_STACK_DEPTH`. -/
def maxStackDepth : Nat := 1024

/-- `handle_call`: error before any mutation when the depth limit is
reached, otherwise push the (post-increment) pc and jump. -/
def handleCall (ctx : ExecutionContext) (target : Nat) :
    Except VmErr ExecutionContext :=
  if maxStackDepth ≤ ctx.callStack.length then
    .error (.execution "Stack overflow: maximum recursion depth exceeded")
  else
    .ok {ctx with callStack := ctx.pc :: ctx.callStack, pc := target}

/-- `handle_return`: pop the return index into pc, error on empty stack. -/
def handleReturn (ctx : ExecutionContext) : Except VmErr ExecutionContext :=
  match ctx.callStack with
  | [] => .error (.execution "Return without matching call")
  | a :: restStack => .ok {ctx with pc := a, callStack := restStack}

theorem toSigned_inj (a b : Nat) (ha : a < 2 ^ 64) (hb : b < 2 ^ 64) :
    (toSigned a = toSigned b) ↔ a = b := by
  unfold toSigned
  split <;> split <;> omega

theorem nv_iff (a b : Nat) (ha : a < 2 ^ 64) (hb : b < 2 ^ 64) :
    ((wrap64 (toSigned a - toSigned b) < 0) ↔
      (toSigned a - toSigned b < -(2 ^ 63) ∨ 2 ^ 63 ≤ toSigned a - toSigned b)) ↔
    ¬(toSigned a < toSigned b) := by
  unfold wrap64 toSigned
  split <;> split <;> omega

theorem compare_flags (ctx : ExecutionContext) (l r : Register) :
    (handleCompare ctx l r).flags.zero = decide (ctx.getReg l = ctx.getReg r) ∧
    (handleCompare ctx l r).flags.carry = decide (ctx.getReg l < ctx.getReg r) ∧
    (handleCompare ctx l r).flags.negative =
      decide (wrap64 (toSigned (ctx.getReg l) - toSigned (ctx.getReg r)) < 0) ∧
    (handleCompare ctx l r).flags.overflow =
      decide (toSigned (ctx.getReg l) - toSigned (ctx.getReg r) < -(2 ^ 63) ∨
        2 ^ 63 ≤ toSigned (ctx.getReg l) - toSigned (ctx.getReg r)) := by
  unfold handleCompare i64OverflowingSub Flags.zero Flags.carry Flags.negative
    Flags.overflow Flags.setZero Flags.setCarry Flags.setNegative Flags.setOverflow
  refine ⟨?_, ?_, ?_, ?_⟩ <;>
    simp [Flags.get_set_self, Flags.get_set_other]

/-- C2: after `Compare(l, r)` on register values `a`, `b`: JumpIfEq jumps
iff `a = b`, JumpIfLt jumps iff `(a as i64) < (b as i64)`, JumpIfBelow jumps
iff `(a as u64) < (b as u64)`, and analogously for Ne, Gt, Ge, Le, Above,
Ae, Be; "jumps" means the handler sets `pc` to the target instead of
leaving the context unchanged. -/
theorem compare_branch_iff (ctx : ExecutionContext) (l r : Register) (t : Nat)
    (ha : ctx.getReg l < 2 ^ 64) (hb : ctx.getReg r < 2 ^ 64) :
    (handleJumpIfEq (handleCompare ctx l r) t =
      if ctx.getReg l = ctx.getReg r then {handleCompare ctx l r with pc := t}
      else handleCompare ctx l r) ∧
    (handleJumpIfNe (handleCompare ctx l r) t =
      if ctx.getReg l ≠ ctx.getReg r then {handleCompare ctx l r with pc := t}
      else handleCompare ctx l r) ∧
    (handleJumpIfLt (handleCompare ctx l r) t =
      if toSigned (ctx.getReg l) < toSigned (ctx.getReg r) then
        {handleCompare ctx l r with pc := t}
      else handleCompare ctx l r) ∧
    (handleJumpIfGt (handleCompare ctx l r) t =
      if toSigned (ctx.getReg r) < toSigned (ctx.getReg l) then
        {handleCompare ctx l r with pc := t}
      else handleCompare ctx l r) ∧
    (handleJumpIfGe (handleCompare ctx l r) t =
      if toSigned (ctx.getReg r) ≤ toSigned (ctx.getReg l) then
        {handleCompare ctx l r with pc := t}
      else handleCompare ctx l r) ∧
    (handleJumpIfLe (handleCompare ctx l r) t =
      if toSigned (ctx.getReg l) ≤ toSigned (ctx.getReg r) then
        {handleCompare ctx l r with pc := t}
      else handleCompare ctx l r) ∧
    (handleJumpIfBelow (handleCompare ctx l r) t =
      if ctx.getReg l < ctx.getReg r then {handleCompare ctx l r with pc := t}
      else handleCompare ctx l r) ∧
    (handleJumpIfAbove (handleCompare ctx l r) t =
      if ctx.getReg r < ctx.getReg l then {handleCompare ctx l r with pc := t}
      else handleCompare ctx l r) ∧
    (handleJumpIfAe (handleCompare ctx l r) t =
      if ctx.getReg r ≤ ctx.getReg l then {handleCompare ctx l r with pc := t}
      else handleCompare ctx l r) ∧
    (handleJumpIfBe (handleCompare ctx l r) t =
      if ctx.getReg l ≤ ctx.getReg r then {handleCompare ctx l r with pc := t}
      else handleCompare ctx l r) := by
  obtain ⟨hz, hc, hn, hv⟩ := compare_flags ctx l r
  have hnv := nv_iff (ctx.getReg l) (ctx.getReg r) ha hb
  have hinj := toSigned_inj (ctx.getReg l) (ctx.getReg r) ha hb
  refine ⟨?_, ?_, ?_, ?_, ?_, ?_, ?_, ?_, ?_, ?_⟩
  case _ =>
    unfold handleJumpIfEq
    rw [hz]
    exact if_congr (by rw [decide_eq_true_eq]) rfl rfl
  case _ =>
    unfold handleJumpIfNe
    rw [hz]
    exact if_congr (by rw [Bool.not_eq_true', decide_eq_false_iff_not]) rfl rfl
  case _ =>
    unfold handleJumpIfLt
    rw [hn, hv]
    refine if_congr ?_ rfl rfl
    rw [bne_iff_ne, ne_eq, decide_eq_decide, hnv, not_not]
  case _ =>
    unfold handleJumpIfGt
    rw [hz, hn, hv]
    refine if_congr ?_ rfl rfl
    rw [Bool.and_eq_true, Bool.not_eq_true', decide_eq_false_iff_not,
      beq_iff_eq, decide_eq_decide, hnv, ← hinj]
    omega
  case _ =>
    unfold handleJumpIfGe
    rw [hn, hv]
    refine if_congr ?_ rfl rfl
    rw [beq_iff_eq, decide_eq_decide, hnv]
    omega
  case _ =>
    unfold handleJumpIfLe
    rw [hz, hn, hv]
    refine if_congr ?_ rfl rfl
    rw [Bool.or_eq_true, decide_eq_true_eq, bne_iff_ne, ne_eq, decide_eq_decide,
      hnv, not_not, ← hinj]
    omega
  case _ =>
    unfold handleJumpIfBelow
    rw [hc]
    exact if_congr (by rw [decide_eq_true_eq]) rfl rfl
  case _ =>
    unfold handleJumpIfAbove
    rw [hz, hc]
    refine if_congr ?_ rfl rfl
    rw [Bool.and_eq_true, Bool.not_eq_true', Bool.not_eq_true',
      decide_eq_false_iff_not, decide_eq_false_iff_not]
    omega
  case _ =>
    unfold handleJumpIfAe
    rw [hc]
    refine if_congr ?_ rfl rfl
    rw [Bool.not_eq_true', decide_eq_false_iff_not]
    omega
  case _ =>
    unfold handleJumpIfBe
    rw [hz, hc]
    refine if_congr ?_ rfl rfl
    rw [Bool.or_eq_true, decide_eq_true_eq, decide_eq_true_eq]
    omega

/-- C3: the flags register packs the four boolean bits Zero, Negative,
Carry and Overflow into one word; each is independently settable and
readable — in particular storing Overflow does not disturb Zero, Negative
or Carry.  (The Overflow accessors are modelled from the spec, see
`Flags.setOverflow`.) -/
theorem flags_four_bits_independent (f : Flags) (v : Bool) :
    ((f.setZero v).zero = v ∧ (f.setZero v).negative = f.negative ∧
      (f.setZero v).carry = f.carry ∧ (f.setZero v).overflow = f.overflow) ∧
    ((f.setNegative v).negative = v ∧ (f.setNegative v).zero = f.zero ∧
      (f.setNegative v).carry = f.carry ∧ (f.setNegative v).overflow = f.overflow) ∧
    ((f.setCarry v).carry = v ∧ (f.setCarry v).zero = f.zero ∧
      (f.setCarry v).negative = f.negative ∧ (f.setCarry v).overflow = f.overflow) ∧
    ((f.setOverflow v).overflow = v ∧ (f.setOverflow v).zero = f.zero ∧
      (f.setOverflow v).negative = f.negative ∧ (f.setOverflow v).carry = f.carry) := by
  unfold Flags.zero Flags.negative Flags.carry Flags.overflow Flags.setZero
    Flags.setNegative Flags.setCarry Flags.setOverflow
  refine ⟨⟨?_, ?_, ?_, ?_⟩, ⟨?_, ?_, ?_, ?_⟩, ⟨?_, ?_, ?_, ?_⟩, ⟨?_, ?_, ?_, ?_⟩⟩ <;>
    first
      | exact Flags.get_set_self f _ v
      | exact Flags.get_set_other f _ _ v (by decide)

/-- Concrete context for the C2 witness: `R0 = 5`, `R1 = 3`. -/
def ctxC2 : ExecutionContext :=
  { registers := fun r => match r with | .R0 => 5 | .R1 => 3 | _ => 0,
    flags := Flags.new, pc := 0, halted := false, callStack := [], trace := false }

/-- Witness for C2 at `R0 = 5`, `R1 = 3`, target 7 (the JumpIfLt case). -/
theorem compare_branch_iff_witness :
    ctxC2.getReg .R0 < 2 ^ 64 ∧ ctxC2.getReg .R1 < 2 ^ 64 ∧
    (handleJumpIfLt (handleCompare ctxC2 .R0 .R1) 7 =
      if toSigned (ctxC2.getReg .R0) < toSigned (ctxC2.getReg .R1) then
        {handleCompare ctxC2 .R0 .R1 with pc := 7}
      else handleCompare ctxC2 .R0 .R1) :=
  ⟨by decide, by decide,
   (compare_branch_iff ctxC2 .R0 .R1 7 (by decide) (by decide)).2.2.1⟩

/-! ## Memory (`src/memory/manager.rs`)

Errors carry their variant data; formatted messages are kept as fixed
strings distinguishing the three `SegmentationFault` causes. -/

inductive MemErr where
  | outOfBounds (address size : Nat)
  | programTooLarge (programSize memorySize : Nat)
  | unaligned (address alignment : Nat)
  | segFault (address : Nat) (msg : String)
  deriving DecidableEq

/-- The `MemoryAccess` trait as a record of operations over a memory
representation `μ` (the Rust code is generic in `M: MemoryAccess`). -/
structure MemAccess (μ : Type) where
  readByte : μ → Nat → Except MemErr Nat
  writeByte : μ → Nat → Nat → Except MemErr μ
  readQword : μ → Nat → Except MemErr Nat
  writeQword : μ → Nat → Nat → Except MemErr μ

/-- An unbounded byte store; the simplest `MemoryAccess` implementation,
on which every access succeeds.  The heap claims are stated over it, the
heap code being generic in the memory implementation. -/
abbrev IMem := Nat → Nat

/-- Write one byte (stored `mod 256`, as a `u8`). -/
def imemWrite (m : IMem) (a v : Nat) : IMem :=
  fun x => if x = a then v % 256 else m x

/-- The trivially-succeeding `MemoryAccess` instance on `IMem`;
qwords are little-endian byte sequences as in the source. -/
def idealMA : MemAccess IMem where
  readByte m a := .ok (m a)
  writeByte m a v := .ok (imemWrite m a v)
  readQword m a :=
    .ok (fromLE8 (m a) (m (a + 1)) (m (a + 2)) (m (a + 3))
      (m (a + 4)) (m (a + 5)) (m (a + 6)) (m (a + 7)))
  writeQword m a v :=
    .ok (fun x => if a ≤ x ∧ x < a + 8 then (le8 v).getD (x - a) 0 else m x)

/-- Permission bits (`MemoryPermission`). -/
def permRead : Nat := 0x01
def permWrite : Nat := 0x02
def permExec : Nat := 0x04

/-- A named segment; `stop` is the Rust field `end` (a Lean keyword). -/
structure Segment where
  name : String
  start : Nat
  stop : Nat
  permissions : Nat
  deriving DecidableEq

/-- The segmented `Memory`: backing bytes (entries beyond `size` unused)
plus the segment table. -/
structure SegMemory where
  bytes : Nat → Nat
  size : Nat
  segments : List Segment

/-- `Memory::new`: default three-segment layout for 64 KiB and larger,
one RWX segment for smaller buffers. -/
def SegMemory.new (size : Nat) : SegMemory :=
  { bytes := fun _ => 0
    size := size
    segments :=
      if 0x10000 ≤ size then
        [⟨"Code", 0, 0x7FFF, permRead ||| permExec⟩,
         ⟨"Heap", 0x8000, 0xBFFF, permRead ||| permWrite⟩,
         ⟨"Stack", 0xC000, size - 1, permRead ||| permWrite⟩]
      else
        [⟨"General", 0, size - 1, permRead ||| permWrite ||| permExec⟩] }

/-- The segment-walk part of `check_access`: first segment containing
`addr` decides; crossing its end or missing the permission is a fault. -/
def segWalk (addr len perm : Nat) : List Segment → Except MemErr Unit
  | [] => .error (.segFault addr "Address does not belong to any segment")
  | seg :: rest =>
    if seg.start ≤ addr ∧ addr ≤ seg.stop then
      if seg.stop < addr + len - 1 then
        .error (.segFault addr "Access spans multiple segments")
      else if seg.permissions &&& perm = 0 then
        .error (.segFault addr "Segment does not have permission")
      else .ok ()
    else segWalk addr len perm rest

/-- `Memory::check_access`. -/
def SegMemory.checkAccess (m : SegMemory) (addr len perm : Nat) :
    Except MemErr Unit :=
  if m.size < addr + len then .error (.outOfBounds addr m.size)
  else segWalk addr len perm m.segments

/-- `Memory::clear`. -/
def SegMemory.clear (m : SegMemory) : SegMemory :=
  {m with bytes := fun _ => 0}

/-- `Memory::load_program`: write `data` at address 0 bypassing
permission checks; fail if it does not fit. -/
def SegMemory.loadProgram (m : SegMemory) (data : List Nat) :
    Except MemErr SegMemory :=
  if m.size < data.length then
    .error (.programTooLarge data.length m.size)
  else
    .ok {m with bytes := fun x => if x < data.length then data.getD x 0 % 256 else m.bytes x}

/-- The `MemoryAccess` implementation on `Memory`:  byte and unaligned
little-endian qword access, each permission-checked. -/
def segMA : MemAccess SegMemory where
  readByte m a :=
    match m.checkAccess a 1 permRead with
    | .error e => .error e
    | .ok _ => .ok (m.bytes a)
  writeByte m a v :=
    match m.checkAccess a 1 permWrite with
    | .error e => .error e
    | .ok _ => .ok {m with bytes := fun x => if x = a then v % 256 else m.bytes x}
  readQword m a :=
    match m.checkAccess a 8 permRead with
    | .error e => .error e
    | .ok _ =>
      .ok (fromLE8 (m.bytes a) (m.bytes (a + 1)) (m.bytes (a + 2)) (m.bytes (a + 3))
        (m.bytes (a + 4)) (m.bytes (a + 5)) (m.bytes (a + 6)) (m.bytes (a + 7)))
  writeQword m a v :=
    match m.checkAccess a 8 permWrite with
    | .error e => .error e
    | .ok _ =>
      .ok {m with bytes := fun x => if a ≤ x ∧ x < a + 8 then (le8 v).getD (x - a) 0 else m.bytes x}

/-! ## Stack (`src/memory/stack.rs`) -/

inductive StackErr where
  | overflow
  | underflow
  | empty
  | memoryError (e : MemErr)
  deriving DecidableEq

/-- Stack state: current pointer and base (top of the region). -/
structure StackT where
  pointer : Nat
  base : Nat
  deriving DecidableEq

/-- `Stack::new`. -/
def StackT.new (base : Nat) : StackT := ⟨base, base⟩

/-- `Stack::push`: overflow guard, then the pointer is decremented by 8
*before* the qword write; the decremented pointer is kept even when the
write fails (the Rust `?` returns with `self.pointer` already mutated). -/
def StackT.push {μ : Type} (ma : MemAccess μ) (s : StackT) (m : μ) (v : Nat) :
    StackT × Except StackErr μ :=
  if s.pointer < 8 then (s, .error .overflow)
  else
    match ma.writeQword m (s.pointer - 8) v with
    | .ok m' => ({s with pointer := s.pointer - 8}, .ok m')
    | .error e => ({s with pointer := s.pointer - 8}, .error (.memoryError e))

/-- `Stack::pop`: underflow guard, read, then increment by 8 (the pointer
is unchanged when the read fails, since the increment follows the read). -/
def StackT.pop {μ : Type} (ma : MemAccess μ) (s : StackT) (m : μ) :
    StackT × Except StackErr Nat :=
  if s.base ≤ s.pointer then (s, .error .underflow)
  else
    match ma.readQword m s.pointer with
    | .ok v => ({s with pointer := s.pointer + 8}, .ok v)
    | .error e => (s, .error (.memoryError e))

/-- `Stack::peek`. -/
def StackT.peek {μ : Type} (ma : MemAccess μ) (s : StackT) (m : μ) :
    Except StackErr Nat :=
  if s.base ≤ s.pointer then .error .empty
  else
    match ma.readQword m s.pointer with
    | .ok v => .ok v
    | .error e => .error (.memoryError e)

/-- C9: stack push is not atomic on memory errors — with `pointer ≥ 8` and
a failing qword write, `push` returns the error yet the stack pointer has
already been decremented by 8. -/
theorem push_not_atomic {μ : Type} (ma : MemAccess μ) (s : StackT) (m : μ)
    (v : Nat) (e : MemErr) (h8 : 8 ≤ s.pointer)
    (hw : ma.writeQword m (s.pointer - 8) v = .error e) :
    s.push ma m v = ({s with pointer := s.pointer - 8}, .error (.memoryError e)) := by
  unfold StackT.push
  rw [if_neg (by omega), hw]

/-- Stack state for the C9 witness: pointer `0x100` inside the default
64 KiB layout's Code segment, which lacks Write permission. -/
def stackC9 : StackT := ⟨0x100, 0x10000⟩

/-- Witness for C9: pushing onto memory whose target address `0xF8` lies
in the read-execute Code segment fails, yet the pointer is left at `0xF8`. -/
theorem push_not_atomic_witness :
    8 ≤ stackC9.pointer ∧
    stackC9.push segMA (SegMemory.new 65536) 5 =
      ({stackC9 with pointer := stackC9.pointer - 8},
        .error (.memoryError (.segFault 248 "Segment does not have permission"))) :=
  ⟨by decide,
   push_not_atomic segMA stackC9 (SegMemory.new 65536) 5
     (.segFault 248 "Segment does not have permission") (by decide) (by rfl)⟩

/-! ## Heap (`src/memory/heap.rs`)

A first-fit free-list allocator whose block headers live inside the
managed memory.  All operations are generic in the `MemoryAccess`
implementation, as in the source.  The unbounded `while` walk of `alloc`
is modelled with an explicit fuel argument counting the blocks still
allowed to be examined; exhausting it yields the distinguished error
`AllocErr.fuel` (in Rust the walk would simply continue — possibly
forever, see the C8 divergence theorem). -/

/-- A block header: `size: u64`, `next_offset: u64 (0 ≡ none)`, `free: u8`,
padded to 24 bytes. -/
structure Block where
  size : Nat
  free : Bool
  next : Option Nat
  deriving DecidableEq

/-- `Block::SIZE`. -/
def Block.headerSize : Nat := 24

/-- The `next` field as stored: 0 encodes `None`. -/
def Block.nextOffset (b : Block) : Nat :=
  match b.next with
  | some n => n
  | none => 0

/-- `Block::to_bytes`: size, next offset (little-endian), free byte,
padding to 24 bytes. -/
def Block.toBytes (b : Block) : List Nat :=
  le8 b.size ++ le8 b.nextOffset ++ [if b.free then 1 else 0, 0, 0, 0, 0, 0, 0, 0]

/-- `Heap::read_block`: read 24 bytes and decode them (`Block::from_bytes`
uses the first 17; the padding is read all the same). -/
def readBlock {μ : Type} (ma : MemAccess μ) (m : μ) (addr : Nat) :
    Except MemErr Block := do
  let b0 ← ma.readByte m addr
  let b1 ← ma.readByte m (addr + 1)
  let b2 ← ma.readByte m (addr + 2)
  let b3 ← ma.readByte m (addr + 3)
  let b4 ← ma.readByte m (addr + 4)
  let b5 ← ma.readByte m (addr + 5)
  let b6 ← ma.readByte m (addr + 6)
  let b7 ← ma.readByte m (addr + 7)
  let b8 ← ma.readByte m (addr + 8)
  let b9 ← ma.readByte m (addr + 9)
  let b10 ← ma.readByte m (addr + 10)
  let b11 ← ma.readByte m (addr + 11)
  let b12 ← ma.readByte m (addr + 12)
  let b13 ← ma.readByte m (addr + 13)
  let b14 ← ma.readByte m (addr + 14)
  let b15 ← ma.readByte m (addr + 15)
  let b16 ← ma.readByte m (addr + 16)
  let _b17 ← ma.readByte m (addr + 17)
  let _b18 ← ma.readByte m (addr + 18)
  let _b19 ← ma.readByte m (addr + 19)
  let _b20 ← ma.readByte m (addr + 20)
  let _b21 ← ma.readByte m (addr + 21)
  let _b22 ← ma.readByte m (addr + 22)
  let _b23 ← ma.readByte m (addr + 23)
  let next0 := fromLE8 b8 b9 b10 b11 b12 b13 b14 b15
  .ok { size := fromLE8 b0 b1 b2 b3 b4 b5 b6 b7
        free := b16 != 0
        next := if next0 = 0 then none else some next0 }

/-- Write a byte list at consecutive addresses (the `write_block` loop). -/
def writeBytes {μ : Type} (ma : MemAccess μ) (m : μ) (addr : Nat) :
    List Nat → Except MemErr μ
  | [] => .ok m
  | b :: rest =>
    match ma.writeByte m addr b with
    | .error e => .error e
    | .ok m' => writeBytes ma m' (addr + 1) rest

/-- `Heap::write_block`. -/
def writeBlock {μ : Type} (ma : MemAccess μ) (m : μ) (addr : Nat) (b : Block) :
    Except MemErr μ :=
  writeBytes ma m addr b.toBytes

/-- Heap descriptor (`Heap { start, size }`). -/
structure Heap where
  start : Nat
  size : Nat
  deriving DecidableEq

/-- `Heap::init`: one free block spanning the whole segment minus header. -/
def Heap.init {μ : Type} (h : Heap) (ma : MemAccess μ) (m : μ) :
    Except MemErr μ :=
  writeBlock ma m h.start ⟨h.size - Block.headerSize, true, none⟩

inductive AllocErr where
  | oom (address : Nat)
  | mem (e : MemErr)
  | fuel
  deriving DecidableEq

/-- Propagation of a memory error out of `alloc` (the Rust `?` on a
`Result<_, MemoryError>` inside a function returning the alloc error). -/
def orFail {α γ : Type} (x : Except MemErr α) (f : α → Except AllocErr γ) :
    Except AllocErr γ :=
  match x with
  | .error e => .error (.mem e)
  | .ok a => f a

theorem orFail_ok {α γ : Type} (a : α) (f : α → Except AllocErr γ) :
    orFail (.ok a) f = f a := rfl

/-- The `alloc` walk.  Mirrors the Rust loop body exactly: while the
current address is inside the heap, read the block; on the first free
block with `size ≥ n` split when `size > n + 24 + 8` (writing the new
free remainder block, then the shrunk, re-linked, allocated block) and
return the payload address; otherwise follow `next`, failing with heap
OOM at the end of the chain or of the region. -/
def Heap.allocGo {μ : Type} (h : Heap) (ma : MemAccess μ) (n : Nat) :
    Nat → Nat → μ → Except AllocErr (μ × Nat)
  | 0, _, _ => .error .fuel
  | fuel + 1, current, m =>
    if current < h.start + h.size then
      orFail (readBlock ma m current) fun b =>
        if b.free = true ∧ n ≤ b.size then
          if n + Block.headerSize + 8 < b.size then
            orFail (writeBlock ma m (current + Block.headerSize + n)
                ⟨b.size - n - Block.headerSize, true, b.next⟩) fun m1 =>
              orFail (writeBlock ma m1 current
                  ⟨n, false, some (current + Block.headerSize + n)⟩) fun m2 =>
                .ok (m2, current + Block.headerSize)
          else
            orFail (writeBlock ma m current ⟨b.size, false, b.next⟩) fun m1 =>
              .ok (m1, current + Block.headerSize)
        else
          match b.next with
          | some nxt => h.allocGo ma n fuel nxt m
          | none => .error (.oom current)
    else .error (.oom current)

/-- `Heap::alloc`: walk the chain from `start`. -/
def Heap.alloc {μ : Type} (h : Heap) (ma : MemAccess μ) (m : μ)
    (n fuel : Nat) : Except AllocErr (μ × Nat) :=
  h.allocGo ma n fuel h.start m

/-- `Heap::free`: reject pointers outside `[start + 24, start + size)`,
then set the `free` bit of the header at `ptr - 24`. -/
def Heap.free {μ : Type} (h : Heap) (ma : MemAccess μ) (m : μ) (ptr : Nat) :
    Except MemErr μ :=
  if ptr < h.start + Block.headerSize ∨ h.start + h.size ≤ ptr then
    .error (.outOfBounds ptr h.size)
  else
    readBlock ma m (ptr - Block.headerSize) >>= fun b =>
      writeBlock ma m (ptr - Block.headerSize) {b with free := true}

/-- Pure ideal-memory read of a block header (`readBlock` on `idealMA`). -/
def iReadBlock (m : IMem) (addr : Nat) : Block :=
  { size := fromLE8 (m addr) (m (addr + 1)) (m (addr + 2)) (m (addr + 3))
      (m (addr + 4)) (m (addr + 5)) (m (addr + 6)) (m (addr + 7))
    free := m (addr + 16) != 0
    next := if fromLE8 (m (addr + 8)) (m (addr + 9)) (m (addr + 10)) (m (addr + 11))
        (m (addr + 12)) (m (addr + 13)) (m (addr + 14)) (m (addr + 15)) = 0 then none
      else some (fromLE8 (m (addr + 8)) (m (addr + 9)) (m (addr + 10)) (m (addr + 11))
        (m (addr + 12)) (m (addr + 13)) (m (addr + 14)) (m (addr + 15))) }

theorem readBlock_ideal (m : IMem) (a : Nat) :
    readBlock idealMA m a = .ok (iReadBlock m a) := rfl

/-- Pure ideal-memory byte-list write. -/
def iWriteBytes (m : IMem) (addr : Nat) : List Nat → IMem
  | [] => m
  | b :: rest => iWriteBytes (imemWrite m addr b) (addr + 1) rest

/-- Pure ideal-memory block write. -/
def iWriteBlock (m : IMem) (addr : Nat) (b : Block) : IMem :=
  iWriteBytes m addr b.toBytes

theorem writeBytes_ideal (l : List Nat) : ∀ (m : IMem) (a : Nat),
    writeBytes idealMA m a l = .ok (iWriteBytes m a l) := by
  induction l with
  | nil => intro m a; rfl
  | cons b rest ih =>
    intro m a
    rw [show writeBytes idealMA m a (b :: rest) =
      writeBytes idealMA (imemWrite m a b) (a + 1) rest from rfl]
    rw [ih]
    rfl

theorem writeBlock_ideal (m : IMem) (a : Nat) (b : Block) :
    writeBlock idealMA m a b = .ok (iWriteBlock m a b) :=
  writeBytes_ideal b.toBytes m a

theorem iWriteBytes_apply (l : List Nat) : ∀ (m : IMem) (a x : Nat),
    iWriteBytes m a l x =
      if a ≤ x ∧ x < a + l.length then l.getD (x - a) 0 % 256 else m x := by
  induction l with
  | nil =>
    intro m a x
    rw [show iWriteBytes m a [] = m from rfl, if_neg (by simp)]
  | cons b rest ih =>
    intro m a x
    rw [show iWriteBytes m a (b :: rest) =
      iWriteBytes (imemWrite m a b) (a + 1) rest from rfl, ih]
    by_cases hx : x = a
    · subst hx
      rw [if_neg (by omega), if_pos (by simp only [List.length_cons]; omega)]
      rw [Nat.sub_self, List.getD_cons_zero]
      simp [imemWrite]
    · by_cases hr : a + 1 ≤ x ∧ x < a + 1 + rest.length
      · rw [if_pos hr, if_pos (by simp only [List.length_cons]; omega)]
        rw [show x - a = (x - (a + 1)) + 1 from by omega, List.getD_cons_succ]
      · rw [if_neg hr, if_neg (by simp only [List.length_cons]; omega)]
        simp [imemWrite, hx]

theorem toBytes_length (b : Block) : b.toBytes.length = 24 := by
  simp [Block.toBytes, le8]

theorem iWriteBlock_apply (m : IMem) (a : Nat) (b : Block) (x : Nat) :
    iWriteBlock m a b x =
      if a ≤ x ∧ x < a + 24 then b.toBytes.getD (x - a) 0 % 256 else m x := by
  unfold iWriteBlock
  rw [iWriteBytes_apply, toBytes_length]

/-- Well-formed header values: `size` fits a `u64` and a present `next`
pointer is a nonzero `u64` (0 encodes `None`). -/
def Block.wfd (b : Block) : Prop :=
  b.size < 2 ^ 64 ∧ ∀ n, b.next = some n → 0 < n ∧ n < 2 ^ 64

theorem Block.nextOffset_lt (b : Block) (hb : b.wfd) : b.nextOffset < 2 ^ 64 := by
  obtain ⟨_, hn⟩ := hb
  unfold Block.nextOffset
  cases h : b.next with
  | none => simp
  | some n => exact (hn n h).2

theorem iReadBlock_iWriteBlock_same (m : IMem) (a : Nat) (b : Block)
    (hb : b.wfd) : iReadBlock (iWriteBlock m a b) a = b := by
  have hw : ∀ i, i < 24 → iWriteBlock m a b (a + i) = b.toBytes.getD i 0 % 256 := by
    intro i hi
    rw [iWriteBlock_apply, if_pos (by omega), Nat.add_sub_cancel_left]
  have h0 : iWriteBlock m a b a = b.toBytes.getD 0 0 % 256 := by
    rw [iWriteBlock_apply, if_pos (by omega), Nat.sub_self]
  unfold iReadBlock
  rw [h0, hw 1 (by omega), hw 2 (by omega), hw 3 (by omega), hw 4 (by omega),
    hw 5 (by omega), hw 6 (by omega), hw 7 (by omega), hw 8 (by omega),
    hw 9 (by omega), hw 10 (by omega), hw 11 (by omega), hw 12 (by omega),
    hw 13 (by omega), hw 14 (by omega), hw 15 (by omega), hw 16 (by omega)]
  rw [show b.toBytes.getD 0 0 = b.size % 256 from rfl,
    show b.toBytes.getD 1 0 = b.size / 256 % 256 from rfl,
    show b.toBytes.getD 2 0 = b.size / 256 ^ 2 % 256 from rfl,
    show b.toBytes.getD 3 0 = b.size / 256 ^ 3 % 256 from rfl,
    show b.toBytes.getD 4 0 = b.size / 256 ^ 4 % 256 from rfl,
    show b.toBytes.getD 5 0 = b.size / 256 ^ 5 % 256 from rfl,
    show b.toBytes.getD 6 0 = b.size / 256 ^ 6 % 256 from rfl,
    show b.toBytes.getD 7 0 = b.size / 256 ^ 7 % 256 from rfl,
    show b.toBytes.getD 8 0 = b.nextOffset % 256 from rfl,
    show b.toBytes.getD 9 0 = b.nextOffset / 256 % 256 from rfl,
    show b.toBytes.getD 10 0 = b.nextOffset / 256 ^ 2 % 256 from rfl,
    show b.toBytes.getD 11 0 = b.nextOffset / 256 ^ 3 % 256 from rfl,
    show b.toBytes.getD 12 0 = b.nextOffset / 256 ^ 4 % 256 from rfl,
    show b.toBytes.getD 13 0 = b.nextOffset / 256 ^ 5 % 256 from rfl,
    show b.toBytes.getD 14 0 = b.nextOffset / 256 ^ 6 % 256 from rfl,
    show b.toBytes.getD 15 0 = b.nextOffset / 256 ^ 7 % 256 from rfl,
    show b.toBytes.getD 16 0 = (if b.free then 1 else 0) from rfl]
  have hno : b.nextOffset < 2 ^ 64 := b.nextOffset_lt hb
  have hsz : fromLE8 (b.size % 256 % 256) (b.size / 256 % 256 % 256)
      (b.size / 256 ^ 2 % 256 % 256) (b.size / 256 ^ 3 % 256 % 256)
      (b.size / 256 ^ 4 % 256 % 256) (b.size / 256 ^ 5 % 256 % 256)
      (b.size / 256 ^ 6 % 256 % 256) (b.size / 256 ^ 7 % 256 % 256) = b.size := by
    unfold fromLE8
    have := hb.1
    omega
  have hnx : fromLE8 (b.nextOffset % 256 % 256) (b.nextOffset / 256 % 256 % 256)
      (b.nextOffset / 256 ^ 2 % 256 % 256) (b.nextOffset / 256 ^ 3 % 256 % 256)
      (b.nextOffset / 256 ^ 4 % 256 % 256) (b.nextOffset / 256 ^ 5 % 256 % 256)
      (b.nextOffset / 256 ^ 6 % 256 % 256) (b.nextOffset / 256 ^ 7 % 256 % 256) =
      b.nextOffset := by
    unfold fromLE8
    omega
  rw [hsz, hnx]
  have hfree : (((if b.free then 1 else 0) % 256 : Nat) != 0) = b.free := by
    cases b.free <;> rfl
  rw [hfree]
  have hnext : (if b.nextOffset = 0 then none else some b.nextOffset) = b.next := by
    obtain ⟨_, hn⟩ := hb
    cases h : b.next with
    | none =>
      rw [show b.nextOffset = 0 from by simp [Block.nextOffset, h]]
      simp
    | some n =>
      have hpos := (hn n h).1
      rw [show b.nextOffset = n from by simp [Block.nextOffset, h], if_neg (by omega)]
  rw [hnext]

theorem iReadBlock_iWriteBlock_disjoint (m : IMem) (a a' : Nat) (b : Block)
    (hd : a + 24 ≤ a' ∨ a' + 24 ≤ a) :
    iReadBlock (iWriteBlock m a' b) a = iReadBlock m a := by
  have key : ∀ i, i < 24 → iWriteBlock m a' b (a + i) = m (a + i) := by
    intro i hi
    rw [iWriteBlock_apply, if_neg (by omega)]
  have key0 : iWriteBlock m a' b a = m a := by
    rw [iWriteBlock_apply, if_neg (by omega)]
  unfold iReadBlock
  rw [key0, key 1 (by omega), key 2 (by omega), key 3 (by omega), key 4 (by omega),
    key 5 (by omega), key 6 (by omega), key 7 (by omega), key 8 (by omega),
    key 9 (by omega), key 10 (by omega), key 11 (by omega), key 12 (by omega),
    key 13 (by omega), key 14 (by omega), key 15 (by omega), key 16 (by omega)]

theorem allocGo_succ {μ : Type} (h : Heap) (ma : MemAccess μ) (n fuel current : Nat)
    (m : μ) :
    h.allocGo ma n (fuel + 1) current m =
      (if current < h.start + h.size then
        orFail (readBlock ma m current) fun b =>
          if b.free = true ∧ n ≤ b.size then
            if n + Block.headerSize + 8 < b.size then
              orFail (writeBlock ma m (current + Block.headerSize + n)
                  ⟨b.size - n - Block.headerSize, true, b.next⟩) fun m1 =>
                orFail (writeBlock ma m1 current
                    ⟨n, false, some (current + Block.headerSize + n)⟩) fun m2 =>
                  .ok (m2, current + Block.headerSize)
            else
              orFail (writeBlock ma m current ⟨b.size, false, b.next⟩) fun m1 =>
                .ok (m1, current + Block.headerSize)
          else
            match b.next with
            | some nxt => h.allocGo ma n fuel nxt m
            | none => .error (.oom current)
      else .error (.oom current)) := rfl

theorem allocGo_step_found (h : Heap) (m : IMem) (n current fuel : Nat) (b : Block)
    (hcur : current < h.start + h.size) (hb : iReadBlock m current = b)
    (hfree : b.free = true) (hfit : n ≤ b.size) :
    h.allocGo idealMA n (fuel + 1) current m =
      if n + Block.headerSize + 8 < b.size then
        .ok (iWriteBlock
          (iWriteBlock m (current + Block.headerSize + n)
            ⟨b.size - n - Block.headerSize, true, b.next⟩)
          current ⟨n, false, some (current + Block.headerSize + n)⟩,
          current + Block.headerSize)
      else
        .ok (iWriteBlock m current ⟨b.size, false, b.next⟩,
          current + Block.headerSize) := by
  rw [allocGo_succ, if_pos hcur, readBlock_ideal, hb]
  simp only [orFail_ok]
  rw [if_pos ⟨hfree, hfit⟩]
  by_cases hsplit : n + Block.headerSize + 8 < b.size
  · rw [if_pos hsplit, writeBlock_ideal]
    simp only [orFail_ok]
    rw [writeBlock_ideal]
    simp only [orFail_ok]
    rw [if_pos hsplit]
  · rw [if_neg hsplit, writeBlock_ideal]
    simp only [orFail_ok]
    rw [if_neg hsplit]

theorem allocGo_step_skip (h : Heap) (m : IMem) (n current fuel : Nat) (b : Block)
    (hcur : current < h.start + h.size) (hb : iReadBlock m current = b)
    (hnot : ¬(b.free = true ∧ n ≤ b.size)) :
    h.allocGo idealMA n (fuel + 1) current m =
      (match b.next with
       | some nxt => h.allocGo idealMA n fuel nxt m
       | none => .error (.oom current)) := by
  rw [allocGo_succ, if_pos hcur, readBlock_ideal, hb]
  simp only [orFail_ok]
  rw [if_neg hnot]

theorem free_eval (h : Heap) (m : IMem) (ptr : Nat)
    (hin : ¬(ptr < h.start + Block.headerSize ∨ h.start + h.size ≤ ptr)) :
    h.free idealMA m ptr =
      .ok (iWriteBlock m (ptr - Block.headerSize)
        {iReadBlock m (ptr - Block.headerSize) with free := true}) := by
  unfold Heap.free
  rw [if_neg hin, readBlock_ideal, exceptOkBind, writeBlock_ideal]

/-- The found-block step as §4.2 of the spec words it: on a free block of
sufficient size, split exactly when the original size exceeds
`n + header + 8` — shrink the block to `n`, create a free block at
`current + header + n` holding the remainder and inheriting the previous
`next`, point the current block's `next` at it — mark the current block
allocated, and return the payload address `current + header`. -/
def allocFoundSpec (m : IMem) (current n : Nat) (b : Block) : IMem × Nat :=
  if n + Block.headerSize + 8 < b.size then
    (iWriteBlock
      (iWriteBlock m (current + Block.headerSize + n)
        ⟨b.size - n - Block.headerSize, true, b.next⟩)
      current ⟨n, false, some (current + Block.headerSize + n)⟩,
     current + Block.headerSize)
  else
    (iWriteBlock m current ⟨b.size, false, b.next⟩, current + Block.headerSize)

/-- C4: the allocator walks the free list from the heap start; a block
that is not a fit is skipped by following its `next` pointer (OOM at the
chain's end); the first free block with `size ≥ n` yields the payload
address `block_addr + 24` and the memory described by the spec's split
rule (`allocFoundSpec`), which splits exactly when the block's original
size exceeds `n + 24 + 8`. -/
theorem alloc_first_fit (h : Heap) (m : IMem) (n current fuel : Nat) (b : Block)
    (hcur : current < h.start + h.size) (hb : iReadBlock m current = b) :
    (h.alloc idealMA m n (fuel + 1) = h.allocGo idealMA n (fuel + 1) h.start m) ∧
    (b.free = true → n ≤ b.size →
      h.allocGo idealMA n (fuel + 1) current m = .ok (allocFoundSpec m current n b)) ∧
    (¬(b.free = true ∧ n ≤ b.size) →
      h.allocGo idealMA n (fuel + 1) current m =
        (match b.next with
         | some nxt => h.allocGo idealMA n fuel nxt m
         | none => .error (.oom current))) := by
  refine ⟨rfl, ?_, ?_⟩
  · intro hfree hfit
    rw [allocGo_step_found h m n current fuel b hcur hb hfree hfit]
    unfold allocFoundSpec
    by_cases hsplit : n + Block.headerSize + 8 < b.size
    · rw [if_pos hsplit, if_pos hsplit]
    · rw [if_neg hsplit, if_neg hsplit]
  · intro hnot
    exact allocGo_step_skip h m n current fuel b hcur hb hnot

set_option maxHeartbeats 800000 in
/-- C5: on a freshly initialised heap, whenever the first allocation of
`n` bytes succeeds it returns `start + 24`; freeing that pointer and
allocating `n` again returns the same pointer. -/
theorem heap_reuse (start hsize n fuel : Nat) (m0 : IMem)
    (hs : 24 < hsize) (hs64 : start + hsize < 2 ^ 64) :
    Heap.init ⟨start, hsize⟩ idealMA m0 =
      .ok (iWriteBlock m0 start ⟨hsize - Block.headerSize, true, none⟩) ∧
    ∀ m2 p,
      Heap.alloc ⟨start, hsize⟩ idealMA
          (iWriteBlock m0 start ⟨hsize - Block.headerSize, true, none⟩) n (fuel + 1) =
        .ok (m2, p) →
      p = start + Block.headerSize ∧
      ∃ m3, Heap.free ⟨start, hsize⟩ idealMA m2 p = .ok m3 ∧
        ∀ g, ∃ m4,
          Heap.alloc ⟨start, hsize⟩ idealMA m3 n (g + 1) = .ok (m4, p) := by
  have hH24 : Block.headerSize = 24 := rfl
  constructor
  · exact writeBlock_ideal m0 start _
  · intro m2 p halloc
    have hwfib : Block.wfd ⟨hsize - Block.headerSize, true, none⟩ := by
      constructor
      · show hsize - Block.headerSize < 2 ^ 64
        omega
      · intro k hk
        exact absurd hk (by simp)
    have hrd1 : iReadBlock
        (iWriteBlock m0 start ⟨hsize - Block.headerSize, true, none⟩) start =
        ⟨hsize - Block.headerSize, true, none⟩ :=
      iReadBlock_iWriteBlock_same _ _ _ hwfib
    unfold Heap.alloc at halloc
    by_cases hfit : n ≤ hsize - Block.headerSize
    case neg =>
      exfalso
      have hskip := allocGo_step_skip ⟨start, hsize⟩
        (iWriteBlock m0 start ⟨hsize - Block.headerSize, true, none⟩) n start fuel
        ⟨hsize - Block.headerSize, true, none⟩
        (by show start < start + hsize; omega) hrd1
        (by intro hcon; exact hfit hcon.2)
      rw [hskip] at halloc
      simp at halloc
    case pos =>
      have hfound := allocGo_step_found ⟨start, hsize⟩
        (iWriteBlock m0 start ⟨hsize - Block.headerSize, true, none⟩) n start fuel
        ⟨hsize - Block.headerSize, true, none⟩
        (by show start < start + hsize; omega) hrd1 rfl hfit
      rw [hfound] at halloc
      by_cases hsplit :
          n + Block.headerSize + 8 < hsize - Block.headerSize
      · rw [if_pos hsplit] at halloc
        rw [Except.ok.injEq, Prod.mk.injEq] at halloc
        obtain ⟨hm2, hp⟩ := halloc
        subst hm2
        subst hp
        refine ⟨rfl, ?_⟩
        have hwfcb : Block.wfd ⟨n, false, some (start + Block.headerSize + n)⟩ := by
          constructor
          · show n < 2 ^ 64
            omega
          · intro k hk
            rw [show (⟨n, false, some (start + Block.headerSize + n)⟩ : Block).next =
              some (start + Block.headerSize + n) from rfl] at hk
            injection hk with hk2
            subst hk2
            omega
        have hrd2 := iReadBlock_iWriteBlock_same
          (iWriteBlock (iWriteBlock m0 start ⟨hsize - Block.headerSize, true, none⟩)
            (start + Block.headerSize + n)
            ⟨hsize - Block.headerSize - n - Block.headerSize, true, none⟩)
          start ⟨n, false, some (start + Block.headerSize + n)⟩ hwfcb
        have hfree2 := free_eval ⟨start, hsize⟩
          (iWriteBlock
            (iWriteBlock (iWriteBlock m0 start ⟨hsize - Block.headerSize, true, none⟩)
              (start + Block.headerSize + n)
              ⟨hsize - Block.headerSize - n - Block.headerSize, true, none⟩)
            start ⟨n, false, some (start + Block.headerSize + n)⟩)
          (start + Block.headerSize)
          (by show ¬(start + Block.headerSize < start + Block.headerSize ∨
              start + hsize ≤ start + Block.headerSize); omega)
        rw [show start + Block.headerSize - Block.headerSize = start from by omega,
          hrd2,
          show ({(⟨n, false, some (start + Block.headerSize + n)⟩ : Block) with
            free := true}) = (⟨n, true, some (start + Block.headerSize + n)⟩ : Block)
            from rfl] at hfree2
        refine ⟨_, hfree2, ?_⟩
        intro g
        have hwf3 : Block.wfd ⟨n, true, some (start + Block.headerSize + n)⟩ := by
          constructor
          · show n < 2 ^ 64
            omega
          · intro k hk
            rw [show (⟨n, true, some (start + Block.headerSize + n)⟩ : Block).next =
              some (start + Block.headerSize + n) from rfl] at hk
            injection hk with hk2
            subst hk2
            omega
        have hrd3 := iReadBlock_iWriteBlock_same
          (iWriteBlock
            (iWriteBlock (iWriteBlock m0 start ⟨hsize - Block.headerSize, true, none⟩)
              (start + Block.headerSize + n)
              ⟨hsize - Block.headerSize - n - Block.headerSize, true, none⟩)
            start ⟨n, false, some (start + Block.headerSize + n)⟩) start
          (⟨n, true, some (start + Block.headerSize + n)⟩ : Block) hwf3
        have hfound2 := allocGo_step_found ⟨start, hsize⟩
          (iWriteBlock
            (iWriteBlock
              (iWriteBlock (iWriteBlock m0 start ⟨hsize - Block.headerSize, true, none⟩)
                (start + Block.headerSize + n)
                ⟨hsize - Block.headerSize - n - Block.headerSize, true, none⟩)
              start ⟨n, false, some (start + Block.headerSize + n)⟩)
            start ⟨n, true, some (start + Block.headerSize + n)⟩) n start g
          ⟨n, true, some (start + Block.headerSize + n)⟩
          (by show start < start + hsize; omega) hrd3 rfl (le_refl n)
        rw [if_neg (by show ¬(n + Block.headerSize + 8 < n); omega)] at hfound2
        exact ⟨_, hfound2⟩
      · rw [if_neg hsplit] at halloc
        rw [Except.ok.injEq, Prod.mk.injEq] at halloc
        obtain ⟨hm2, hp⟩ := halloc
        subst hm2
        subst hp
        refine ⟨rfl, ?_⟩
        have hwfcb : Block.wfd ⟨hsize - Block.headerSize, false, none⟩ := by
          constructor
          · show hsize - Block.headerSize < 2 ^ 64
            omega
          · intro k hk
            exact absurd hk (by simp)
        have hrd2 := iReadBlock_iWriteBlock_same
          (iWriteBlock m0 start ⟨hsize - Block.headerSize, true, none⟩)
          start ⟨hsize - Block.headerSize, false, none⟩ hwfcb
        have hfree2 := free_eval ⟨start, hsize⟩
          (iWriteBlock (iWriteBlock m0 start ⟨hsize - Block.headerSize, true, none⟩)
            start ⟨hsize - Block.headerSize, false, none⟩)
          (start + Block.headerSize)
          (by show ¬(start + Block.headerSize < start + Block.headerSize ∨
              start + hsize ≤ start + Block.headerSize); omega)
        rw [show start + Block.headerSize - Block.headerSize = start from by omega,
          hrd2,
          show ({(⟨hsize - Block.headerSize, false, none⟩ : Block) with free := true}) =
            (⟨hsize - Block.headerSize, true, none⟩ : Block) from rfl] at hfree2
        refine ⟨_, hfree2, ?_⟩
        intro g
        have hrd3 := iReadBlock_iWriteBlock_same
          (iWriteBlock (iWriteBlock m0 start ⟨hsize - Block.headerSize, true, none⟩)
            start ⟨hsize - Block.headerSize, false, none⟩) start
          (⟨hsize - Block.headerSize, true, none⟩ : Block) hwfib
        have hfound2 := allocGo_step_found ⟨start, hsize⟩
          (iWriteBlock
            (iWriteBlock (iWriteBlock m0 start ⟨hsize - Block.headerSize, true, none⟩)
              start ⟨hsize - Block.headerSize, false, none⟩)
            start ⟨hsize - Block.headerSize, true, none⟩) n start g
          ⟨hsize - Block.headerSize, true, none⟩
          (by show start < start + hsize; omega) hrd3 rfl hfit
        rw [if_neg hsplit] at hfound2
        exact ⟨_, hfound2⟩

/-- Heap and memory for the C4 witness: a 100-byte heap at 0 whose single
free block (size 76) sits at address 0. -/
def heapC4 : Heap := ⟨0, 100⟩

def memC4 : IMem := iWriteBlock (fun _ => 0) 0 ⟨76, true, none⟩

/-- Witness for C4 at the fresh block, requesting 8 bytes. -/
theorem alloc_first_fit_witness :
    (0 < heapC4.start + heapC4.size ∧ iReadBlock memC4 0 = ⟨76, true, none⟩) ∧
    ((heapC4.alloc idealMA memC4 8 (0 + 1) =
        heapC4.allocGo idealMA 8 (0 + 1) heapC4.start memC4) ∧
     ((⟨76, true, none⟩ : Block).free = true → 8 ≤ (⟨76, true, none⟩ : Block).size →
       heapC4.allocGo idealMA 8 (0 + 1) 0 memC4 =
         .ok (allocFoundSpec memC4 0 8 ⟨76, true, none⟩)) ∧
     (¬((⟨76, true, none⟩ : Block).free = true ∧ 8 ≤ (⟨76, true, none⟩ : Block).size) →
       heapC4.allocGo idealMA 8 (0 + 1) 0 memC4 =
         (match (⟨76, true, none⟩ : Block).next with
          | some nxt => heapC4.allocGo idealMA 8 0 nxt memC4
          | none => .error (.oom 0)))) :=
  ⟨⟨by decide, by decide⟩,
   alloc_first_fit heapC4 memC4 8 0 0 ⟨76, true, none⟩ (by decide) (by decide)⟩

/-- Witness for C5 on the spec's heap segment (start `0x8000`,
size `0x4000`), allocating 8 bytes. -/
theorem heap_reuse_witness :
    (24 < 0x4000 ∧ 0x8000 + 0x4000 < 2 ^ 64) ∧
    (Heap.init ⟨0x8000, 0x4000⟩ idealMA (fun _ => 0) =
      .ok (iWriteBlock (fun _ => 0) 0x8000
        ⟨0x4000 - Block.headerSize, true, none⟩) ∧
     ∀ m2 p,
       Heap.alloc ⟨0x8000, 0x4000⟩ idealMA
           (iWriteBlock (fun _ => 0) 0x8000
             ⟨0x4000 - Block.headerSize, true, none⟩) 8 (3 + 1) = .ok (m2, p) →
       p = 0x8000 + Block.headerSize ∧
       ∃ m3, Heap.free ⟨0x8000, 0x4000⟩ idealMA m2 p = .ok m3 ∧
         ∀ g, ∃ m4,
           Heap.alloc ⟨0x8000, 0x4000⟩ idealMA m3 8 (g + 1) = .ok (m4, p)) :=
  ⟨⟨by decide, by decide⟩,
   heap_reuse 0x8000 0x4000 8 3 (fun _ => 0) (by decide) (by decide)⟩

/-! ## Arithmetic, logic and data-movement handlers
(`src/execution/handlers/{arithmetic,logic,data_move}.rs`) -/

def handleAdd (ctx : ExecutionContext) (dest left right : Register) :
    ExecutionContext :=
  let rv := u64OverflowingAdd (ctx.getReg left) (ctx.getReg right)
  let ctx' := ctx.setReg dest rv.1
  {ctx' with flags := ctx'.flags.updateFromResult rv.1 rv.2}

def handleSub (ctx : ExecutionContext) (dest left right : Register) :
    ExecutionContext :=
  let rv := u64OverflowingSub (ctx.getReg left) (ctx.getReg right)
  let ctx' := ctx.setReg dest rv.1
  {ctx' with flags := ctx'.flags.updateFromResult rv.1 rv.2}

def handleMul (ctx : ExecutionContext) (dest left right : Register) :
    ExecutionContext :=
  let rv := u64OverflowingMul (ctx.getReg left) (ctx.getReg right)
  let ctx' := ctx.setReg dest rv.1
  {ctx' with flags := ctx'.flags.updateFromResult rv.1 rv.2}

def handleDiv (ctx : ExecutionContext) (dest left right : Register) :
    Except VmErr ExecutionContext :=
  let b := ctx.getReg right
  if b = 0 then .error .divisionByZero
  else
    let result := ctx.getReg left / b
    let ctx' := ctx.setReg dest result
    .ok {ctx' with flags := ctx'.flags.updateFromResult result false}

def handleMod (ctx : ExecutionContext) (dest left right : Register) :
    Except VmErr ExecutionContext :=
  let b := ctx.getReg right
  if b = 0 then .error .divisionByZero
  else
    let result := ctx.getReg left % b
    let ctx' := ctx.setReg dest result
    .ok {ctx' with flags := ctx'.flags.updateFromResult result false}

def handleAddAssign (ctx : ExecutionContext) (dest src : Register) :
    ExecutionContext :=
  let rv := u64OverflowingAdd (ctx.getReg dest) (ctx.getReg src)
  let ctx' := ctx.setReg dest rv.1
  {ctx' with flags := ctx'.flags.updateFromResult rv.1 rv.2}

def handleSubAssign (ctx : ExecutionContext) (dest src : Register) :
    ExecutionContext :=
  let rv := u64OverflowingSub (ctx.getReg dest) (ctx.getReg src)
  let ctx' := ctx.setReg dest rv.1
  {ctx' with flags := ctx'.flags.updateFromResult rv.1 rv.2}

def handleMulAssign (ctx : ExecutionContext) (dest src : Register) :
    ExecutionContext :=
  let rv := u64OverflowingMul (ctx.getReg dest) (ctx.getReg src)
  let ctx' := ctx.setReg dest rv.1
  {ctx' with flags := ctx'.flags.updateFromResult rv.1 rv.2}

def handleDivAssign (ctx : ExecutionContext) (dest src : Register) :
    Except VmErr ExecutionContext :=
  let b := ctx.getReg src
  if b = 0 then .error .divisionByZero
  else
    let result := ctx.getReg dest / b
    let ctx' := ctx.setReg dest result
    .ok {ctx' with flags := ctx'.flags.updateFromResult result false}

def handleAnd (ctx : ExecutionContext) (dest left right : Register) :
    ExecutionContext :=
  let result := ctx.getReg left &&& ctx.getReg right
  let ctx' := ctx.setReg dest result
  {ctx' with flags := ctx'.flags.updateFromResult result false}

def handleOr (ctx : ExecutionContext) (dest left right : Register) :
    ExecutionContext :=
  let result := ctx.getReg left ||| ctx.getReg right
  let ctx' := ctx.setReg dest result
  {ctx' with flags := ctx'.flags.updateFromResult result false}

def handleXor (ctx : ExecutionContext) (dest left right : Register) :
    ExecutionContext :=
  let result := ctx.getReg left ^^^ ctx.getReg right
  let ctx' := ctx.setReg dest result
  {ctx' with flags := ctx'.flags.updateFromResult result false}

/-- The `u64` complement `!a` (register values stay below `2 ^ 64`). -/
def u64Not (a : Nat) : Nat := 2 ^ 64 - 1 - a % 2 ^ 64

def handleNot (ctx : ExecutionContext) (dest src : Register) :
    ExecutionContext :=
  let result := u64Not (ctx.getReg src)
  let ctx' := ctx.setReg dest result
  {ctx' with flags := ctx'.flags.updateFromResult result false}

/-- `wrapping_shl`: the shift register is cast to `u32`, and the shift
wraps modulo 64. -/
def handleShl (ctx : ExecutionContext) (dest left right : Register) :
    ExecutionContext :=
  let shift := ctx.getReg right % 2 ^ 32
  let result := (ctx.getReg left <<< (shift % 64)) % 2 ^ 64
  let ctx' := ctx.setReg dest result
  {ctx' with flags := ctx'.flags.updateFromResult result false}

def handleShr (ctx : ExecutionContext) (dest left right : Register) :
    ExecutionContext :=
  let shift := ctx.getReg right % 2 ^ 32
  let result := ctx.getReg left >>> (shift % 64)
  let ctx' := ctx.setReg dest result
  {ctx' with flags := ctx'.flags.updateFromResult result false}

def handleLoadImm (ctx : ExecutionContext) (dest : Register) (value : Nat) :
    ExecutionContext :=
  ctx.setReg dest value

def handleMove (ctx : ExecutionContext) (dest src : Register) :
    ExecutionContext :=
  ctx.setReg dest (ctx.getReg src)

def handleSwap (ctx : ExecutionContext) (r1 r2 : Register) :
    ExecutionContext :=
  let v1 := ctx.getReg r1
  let v2 := ctx.getReg r2
  (ctx.setReg r1 v2).setReg r2 v1

/-! ## Syscalls (`src/execution/handlers/io.rs`)

Output lines are modelled structurally (one `OutputItem` per `output.push`,
abstracting the `format!` rendering); `print_immediately` only mirrors
pushes to the console and is dropped. -/

inductive OutputItem where
  | int (v : Nat)
  | str (bytes : List Nat)
  | debug (v : Nat)
  | mallocErr
  | freeErr
  | float (bits : Nat)
  deriving DecidableEq

/-- The NUL-terminated-string read loop of syscall 2.  The Rust loop
accumulates bytes and, after each push, breaks once the accumulator length
exceeds 1024 — so up to 1025 bytes are read; `remaining` counts the pushes
still allowed, starting at 1025.  It stops early at a NUL byte or at the
first read error. -/
def readStrGo {μ : Type} (ma : MemAccess μ) (m : μ) : Nat → Nat → List Nat
  | _, 0 => []
  | curr, r + 1 =>
    match ma.readByte m curr with
    | .error _ => []
    | .ok 0 => []
    | .ok b => b :: readStrGo ma m (curr + 1) r

def readString {μ : Type} (ma : MemAccess μ) (m : μ) (addr : Nat) : List Nat :=
  readStrGo ma m addr 1025

/-- `handle_syscall`, dispatching on R0.  The heap-walk fuel `hfuel` models
the unbounded free-list walk of syscall 4 (see `Heap.allocGo`). -/
def handleSyscall {μ : Type} (ma : MemAccess μ) (heap : Heap)
    (ctx : ExecutionContext) (m : μ) (output : List OutputItem) (hfuel : Nat) :
    ExecutionContext × μ × List OutputItem :=
  let id := ctx.getReg .R0
  if id = 1 then (ctx, m, output ++ [.int (ctx.getReg .R1)])
  else if id = 2 then (ctx, m, output ++ [.str (readString ma m (ctx.getReg .R1))])
  else if id = 3 then (ctx, m, output ++ [.debug (ctx.getReg .R1)])
  else if id = 4 then
    match heap.alloc ma m (ctx.getReg .R1) hfuel with
    | .ok (m', ptr) => (ctx.setReg .R0 ptr, m', output)
    | .error _ => (ctx.setReg .R0 0, m, output ++ [.mallocErr])
  else if id = 5 then
    match heap.free ma m (ctx.getReg .R1) with
    | .ok m' => (ctx, m', output)
    | .error _ => (ctx, m, output ++ [.freeErr])
  else if id = 6 then (ctx, m, output ++ [.float (ctx.getReg .R1)])
  else (ctx, m, output)

/-! ## Memory-extension handlers (`src/execution/handlers/memory_ext.rs`) -/

/-- The `memcpy` loop: byte-by-byte ascending copy. -/
def memcpyGo {μ : Type} (ma : MemAccess μ) (src dest : Nat) :
    Nat → Nat → μ → Except VmErr μ
  | 0, _, m => .ok m
  | k + 1, i, m =>
    match ma.readByte m (src + i) with
    | .error _ => .error (.memory "memory error")
    | .ok b =>
      match ma.writeByte m (dest + i) b with
      | .error _ => .error (.memory "memory error")
      | .ok m' => memcpyGo ma src dest k (i + 1) m'

/-- The `memset` loop. -/
def memsetGo {μ : Type} (ma : MemAccess μ) (dest value : Nat) :
    Nat → Nat → μ → Except VmErr μ
  | 0, _, m => .ok m
  | k + 1, i, m =>
    match ma.writeByte m (dest + i) value with
    | .error _ => .error (.memory "memory error")
    | .ok m' => memsetGo ma dest value k (i + 1) m'

/-! ## The VM step (`src/execution/vm.rs`)

State of a running VM (context, segmented memory, stack, collected
output).  The dispatch arms for `Alloc`/`Free`/`MemCopy`/`MemSet` are
modelled from the spec (§4.4 "memory instructions delegate to §4.1/§4.2")
and the handlers in `memory_ext.rs`: the snapshot's `execute_instruction`
predates those variants.  Error payload strings of stack and memory
failures are abbreviated. -/

structure VmState where
  ctx : ExecutionContext
  mem : SegMemory
  stack : StackT
  output : List OutputItem

/-- `execute_instruction`, dispatching one already-fetched instruction
(the pc has already been advanced by the loop). -/
def executeInstruction (heap : Heap) (hfuel : Nat) (st : VmState) :
    Instruction → Except VmErr VmState
  | .Halt => .ok {st with ctx := {st.ctx with halted := true}}
  | .Nop => .ok st
  | .LoadImm dest value => .ok {st with ctx := handleLoadImm st.ctx dest value}
  | .Move dest src => .ok {st with ctx := handleMove st.ctx dest src}
  | .Swap r1 r2 => .ok {st with ctx := handleSwap st.ctx r1 r2}
  | .Add dest left right => .ok {st with ctx := handleAdd st.ctx dest left right}
  | .Sub dest left right => .ok {st with ctx := handleSub st.ctx dest left right}
  | .Mul dest left right => .ok {st with ctx := handleMul st.ctx dest left right}
  | .Div dest left right =>
    match handleDiv st.ctx dest left right with
    | .ok ctx' => .ok {st with ctx := ctx'}
    | .error e => .error e
  | .Mod dest left right =>
    match handleMod st.ctx dest left right with
    | .ok ctx' => .ok {st with ctx := ctx'}
    | .error e => .error e
  | .AddAssign dest src => .ok {st with ctx := handleAddAssign st.ctx dest src}
  | .SubAssign dest src => .ok {st with ctx := handleSubAssign st.ctx dest src}
  | .MulAssign dest src => .ok {st with ctx := handleMulAssign st.ctx dest src}
  | .DivAssign dest src =>
    match handleDivAssign st.ctx dest src with
    | .ok ctx' => .ok {st with ctx := ctx'}
    | .error e => .error e
  | .And dest left right => .ok {st with ctx := handleAnd st.ctx dest left right}
  | .Or dest left right => .ok {st with ctx := handleOr st.ctx dest left right}
  | .Xor dest left right => .ok {st with ctx := handleXor st.ctx dest left right}
  | .Not dest src => .ok {st with ctx := handleNot st.ctx dest src}
  | .Shl dest left right => .ok {st with ctx := handleShl st.ctx dest left right}
  | .Shr dest left right => .ok {st with ctx := handleShr st.ctx dest left right}
  | .Push src =>
    match StackT.push segMA st.stack st.mem (st.ctx.getReg src) with
    | (stk', .ok m') => .ok {st with stack := stk', mem := m'}
    | (_, .error _) => .error (.stack "stack error")
  | .Pop dest =>
    match StackT.pop segMA st.stack st.mem with
    | (stk', .ok v) => .ok {st with stack := stk', ctx := st.ctx.setReg dest v}
    | (_, .error _) => .error (.stack "stack error")
  | .Peek dest =>
    match StackT.peek segMA st.stack st.mem with
    | .ok v => .ok {st with ctx := st.ctx.setReg dest v}
    | .error _ => .error (.stack "stack error")
  | .Load dest addrReg =>
    match segMA.readQword st.mem (st.ctx.getReg addrReg) with
    | .ok v => .ok {st with ctx := st.ctx.setReg dest v}
    | .error _ => .error (.memory "memory error")
  | .Store src addrReg =>
    match segMA.writeQword st.mem (st.ctx.getReg addrReg) (st.ctx.getReg src) with
    | .ok m' => .ok {st with mem := m'}
    | .error _ => .error (.memory "memory error")
  | .LoadIndexed dest baseReg indexReg =>
    match segMA.readQword st.mem
        (st.ctx.getReg baseReg + st.ctx.getReg indexReg * 8) with
    | .ok v => .ok {st with ctx := st.ctx.setReg dest v}
    | .error _ => .error (.memory "memory error")
  | .StoreIndexed src baseReg indexReg =>
    match segMA.writeQword st.mem
        (st.ctx.getReg baseReg + st.ctx.getReg indexReg * 8)
        (st.ctx.getReg src) with
    | .ok m' => .ok {st with mem := m'}
    | .error _ => .error (.memory "memory error")
  | .Jump target => .ok {st with ctx := handleJump st.ctx target}
  | .Compare left right => .ok {st with ctx := handleCompare st.ctx left right}
  | .JumpIfZero target => .ok {st with ctx := handleJumpIfZero st.ctx target}
  | .JumpIfNotZero target => .ok {st with ctx := handleJumpIfNotZero st.ctx target}
  | .JumpIfGt target => .ok {st with ctx := handleJumpIfGt st.ctx target}
  | .JumpIfLt target => .ok {st with ctx := handleJumpIfLt st.ctx target}
  | .JumpIfGe target => .ok {st with ctx := handleJumpIfGe st.ctx target}
  | .JumpIfLe target => .ok {st with ctx := handleJumpIfLe st.ctx target}
  | .JumpIfEq target => .ok {st with ctx := handleJumpIfEq st.ctx target}
  | .JumpIfNe target => .ok {st with ctx := handleJumpIfNe st.ctx target}
  | .JumpIfAbove target => .ok {st with ctx := handleJumpIfAbove st.ctx target}
  | .JumpIfBelow target => .ok {st with ctx := handleJumpIfBelow st.ctx target}
  | .JumpIfAe target => .ok {st with ctx := handleJumpIfAe st.ctx target}
  | .JumpIfBe target => .ok {st with ctx := handleJumpIfBe st.ctx target}
  | .Call target =>
    match handleCall st.ctx target with
    | .ok ctx' => .ok {st with ctx := ctx'}
    | .error e => .error e
  | .Return =>
    match handleReturn st.ctx with
    | .ok ctx' => .ok {st with ctx := ctx'}
    | .error e => .error e
  | .Syscall =>
    let r := handleSyscall segMA heap st.ctx st.mem st.output hfuel
    .ok {st with ctx := r.1, mem := r.2.1, output := r.2.2}
  | .Alloc dest sizeReg =>
    match heap.alloc segMA st.mem (st.ctx.getReg sizeReg) hfuel with
    | .ok (m', ptr) => .ok {st with ctx := st.ctx.setReg dest ptr, mem := m'}
    | .error _ => .error (.memory "memory error")
  | .Free ptrReg =>
    match heap.free segMA st.mem (st.ctx.getReg ptrReg) with
    | .ok m' => .ok {st with mem := m'}
    | .error _ => .error (.memory "memory error")
  | .MemCopy destReg srcReg sizeReg =>
    match memcpyGo segMA (st.ctx.getReg srcReg) (st.ctx.getReg destReg)
        (st.ctx.getReg sizeReg) 0 st.mem with
    | .ok m' => .ok {st with mem := m'}
    | .error e => .error e
  | .MemSet destReg valueReg sizeReg =>
    match memsetGo segMA (st.ctx.getReg destReg) (st.ctx.getReg valueReg % 256)
        (st.ctx.getReg sizeReg) 0 st.mem with
    | .ok m' => .ok {st with mem := m'}
    | .error e => .error e

/-- One iteration of the `run` loop, without the instruction budget: when
halted or the pc has left the program, the state is returned unchanged
(the loop has stopped); otherwise fetch at pc, advance pc by one, and
dispatch. -/
def vmStep (prog : List Instruction) (heap : Heap) (hfuel : Nat)
    (st : VmState) : Except VmErr VmState :=
  if st.ctx.halted ∨ prog.length ≤ st.ctx.pc then .ok st
  else
    match prog[st.ctx.pc]? with
    | none => .error (.execution "Invalid program counter")
    | some instr =>
      executeInstruction heap hfuel
        {st with ctx := {st.ctx with pc := st.ctx.pc + 1}} instr

/-- Iterate `vmStep` (the states the `run` loop passes through). -/
def stepN (prog : List Instruction) (heap : Heap) (hfuel : Nat) :
    Nat → VmState → Except VmErr VmState
  | 0, st => .ok st
  | n + 1, st =>
    match vmStep prog heap hfuel st with
    | .error e => .error e
    | .ok st' => stepN prog heap hfuel n st'

theorem setReg_callStack (ctx : ExecutionContext) (r : Register) (v : Nat) :
    (ctx.setReg r v).callStack = ctx.callStack := rfl


theorem handleAdd_callStack (ctx : ExecutionContext) (d l r : Register) :
    (handleAdd ctx d l r).callStack = ctx.callStack := rfl


theorem handleSub_callStack (ctx : ExecutionContext) (d l r : Register) :
    (handleSub ctx d l r).callStack = ctx.callStack := rfl


theorem handleMul_callStack (ctx : ExecutionContext) (d l r : Register) :
    (handleMul ctx d l r).callStack = ctx.callStack := rfl


theorem handleAddAssign_callStack (ctx : ExecutionContext) (d s : Register) :
    (handleAddAssign ctx d s).callStack = ctx.callStack := rfl


theorem handleSubAssign_callStack (ctx : ExecutionContext) (d s : Register) :
    (handleSubAssign ctx d s).callStack = ctx.callStack := rfl


theorem handleMulAssign_callStack (ctx : ExecutionContext) (d s : Register) :
    (handleMulAssign ctx d s).callStack = ctx.callStack := rfl


theorem handleAnd_callStack (ctx : ExecutionContext) (d l r : Register) :
    (handleAnd ctx d l r).callStack = ctx.callStack := rfl


theorem handleOr_callStack (ctx : ExecutionContext) (d l r : Register) :
    (handleOr ctx d l r).callStack = ctx.callStack := rfl


theorem handleXor_callStack (ctx : ExecutionContext) (d l r : Register) :
    (handleXor ctx d l r).callStack = ctx.callStack := rfl


theorem handleNot_callStack (ctx : ExecutionContext) (d s : Register) :
    (handleNot ctx d s).callStack = ctx.callStack := rfl


theorem handleShl_callStack (ctx : ExecutionContext) (d l r : Register) :
    (handleShl ctx d l r).callStack = ctx.callStack := rfl


theorem handleShr_callStack (ctx : ExecutionContext) (d l r : Register) :
    (handleShr ctx d l r).callStack = ctx.callStack := rfl


theorem handleLoadImm_callStack (ctx : ExecutionContext) (d : Register) (v : Nat) :
    (handleLoadImm ctx d v).callStack = ctx.callStack := rfl


theorem handleMove_callStack (ctx : ExecutionContext) (d s : Register) :
    (handleMove ctx d s).callStack = ctx.callStack := rfl


theorem handleSwap_callStack (ctx : ExecutionContext) (r1 r2 : Register) :
    (handleSwap ctx r1 r2).callStack = ctx.callStack := rfl


theorem handleJump_callStack (ctx : ExecutionContext) (t : Nat) :
    (handleJump ctx t).callStack = ctx.callStack := rfl


theorem handleCompare_callStack (ctx : ExecutionContext) (l r : Register) :
    (handleCompare ctx l r).callStack = ctx.callStack := rfl


theorem handleJumpIfZero_callStack (ctx : ExecutionContext) (t : Nat) :
    (handleJumpIfZero ctx t).callStack = ctx.callStack := by
  unfold handleJumpIfZero
  split <;> rfl


theorem handleJumpIfNotZero_callStack (ctx : ExecutionContext) (t : Nat) :
    (handleJumpIfNotZero ctx t).callStack = ctx.callStack := by
  unfold handleJumpIfNotZero
  split <;> rfl


theorem handleJumpIfGt_callStack (ctx : ExecutionContext) (t : Nat) :
    (handleJumpIfGt ctx t).callStack = ctx.callStack := by
  unfold handleJumpIfGt
  split <;> rfl


theorem handleJumpIfLt_callStack (ctx : ExecutionContext) (t : Nat) :
    (handleJumpIfLt ctx t).callStack = ctx.callStack := by
  unfold handleJumpIfLt
  split <;> rfl


theorem handleJumpIfGe_callStack (ctx : ExecutionContext) (t : Nat) :
    (handleJumpIfGe ctx t).callStack = ctx.callStack := by
  unfold handleJumpIfGe
  split <;> rfl


theorem handleJumpIfLe_callStack (ctx : ExecutionContext) (t : Nat) :
    (handleJumpIfLe ctx t).callStack = ctx.callStack := by
  unfold handleJumpIfLe
  split <;> rfl


theorem handleJumpIfEq_callStack (ctx : ExecutionContext) (t : Nat) :
    (handleJumpIfEq ctx t).callStack = ctx.callStack := by
  unfold handleJumpIfEq
  split <;> rfl


theorem handleJumpIfNe_callStack (ctx : ExecutionContext) (t : Nat) :
    (handleJumpIfNe ctx t).callStack = ctx.callStack := by
  unfold handleJumpIfNe
  split <;> rfl


theorem handleJumpIfAbove_callStack (ctx : ExecutionContext) (t : Nat) :
    (handleJumpIfAbove ctx t).callStack = ctx.callStack := by
  unfold handleJumpIfAbove
  split <;> rfl


theorem handleJumpIfBelow_callStack (ctx : ExecutionContext) (t : Nat) :
    (handleJumpIfBelow ctx t).callStack = ctx.callStack := by
  unfold handleJumpIfBelow
  split <;> rfl


theorem handleJumpIfAe_callStack (ctx : ExecutionContext) (t : Nat) :
    (handleJumpIfAe ctx t).callStack = ctx.callStack := by
  unfold handleJumpIfAe
  split <;> rfl


theorem handleJumpIfBe_callStack (ctx : ExecutionContext) (t : Nat) :
    (handleJumpIfBe ctx t).callStack = ctx.callStack := by
  unfold handleJumpIfBe
  split <;> rfl


theorem handleDiv_ok_callStack (ctx : ExecutionContext) (d l r : Register)
    (ctx' : ExecutionContext) (h : handleDiv ctx d l r = .ok ctx') :
    ctx'.callStack = ctx.callStack := by
  unfold handleDiv at h
  dsimp only at h
  split at h
  · exact absurd h (by simp)
  · rw [Except.ok.injEq] at h
    subst h
    rfl


theorem handleMod_ok_callStack (ctx : ExecutionContext) (d l r : Register)
    (ctx' : ExecutionContext) (h : handleMod ctx d l r = .ok ctx') :
    ctx'.callStack = ctx.callStack := by
  unfold handleMod at h
  dsimp only at h
  split at h
  · exact absurd h (by simp)
  · rw [Except.ok.injEq] at h
    subst h
    rfl


theorem handleDivAssign_ok_callStack (ctx : ExecutionContext) (d s : Register)
    (ctx' : ExecutionContext) (h : handleDivAssign ctx d s = .ok ctx') :
    ctx'.callStack = ctx.callStack := by
  unfold handleDivAssign at h
  dsimp only at h
  split at h
  · exact absurd h (by simp)
  · rw [Except.ok.injEq] at h
    subst h
    rfl

theorem handleCall_ok_callStack (ctx : ExecutionContext) (t : Nat)
    (ctx' : ExecutionContext) (h : handleCall ctx t = .ok ctx') :
    ctx'.callStack = ctx.pc :: ctx.callStack ∧ ctx.callStack.length < 1024 := by
  unfold handleCall at h
  split at h
  · exact absurd h (by simp)
  · rw [Except.ok.injEq] at h
    subst h
    rename_i hlt
    have hmax : maxStackDepth = 1024 := rfl
    exact ⟨rfl, by omega⟩

theorem handleReturn_ok_callStack (ctx : ExecutionContext)
    (ctx' : ExecutionContext) (h : handleReturn ctx = .ok ctx') :
    ctx'.callStack.length + 1 = ctx.callStack.length := by
  unfold handleReturn at h
  split at h
  · exact absurd h (by simp)
  · rename_i a rest heq
    rw [Except.ok.injEq] at h
    subst h
    rw [heq]
    rfl

theorem handleSyscall_ctx_callStack {μ : Type} (ma : MemAccess μ) (heap : Heap)
    (ctx : ExecutionContext) (m : μ) (out : List OutputItem) (hfuel : Nat) :
    (handleSyscall ma heap ctx m out hfuel).1.callStack = ctx.callStack := by
  unfold handleSyscall
  dsimp only
  split_ifs <;> first | rfl | (split <;> rfl)


set_option maxHeartbeats 1600000 in
theorem executeInstruction_callStack (heap : Heap) (hfuel : Nat) (st : VmState)
    (instr : Instruction) (st' : VmState)
    (h : executeInstruction heap hfuel st instr = .ok st') :
    st'.ctx.callStack.length ≤ st.ctx.callStack.length + 1 ∧
    (1024 ≤ st.ctx.callStack.length →
      st'.ctx.callStack.length ≤ st.ctx.callStack.length) := by
  cases instr <;> simp only [executeInstruction] at h
  case Halt =>
    rw [Except.ok.injEq] at h
    subst h
    constructor <;> intros <;> simp [setReg_callStack, handleAdd_callStack, handleSub_callStack, handleMul_callStack, handleAddAssign_callStack, handleSubAssign_callStack, handleMulAssign_callStack, handleAnd_callStack, handleOr_callStack, handleXor_callStack, handleNot_callStack, handleShl_callStack, handleShr_callStack, handleLoadImm_callStack, handleMove_callStack, handleSwap_callStack, handleJump_callStack, handleCompare_callStack, handleJumpIfZero_callStack, handleJumpIfNotZero_callStack, handleJumpIfGt_callStack, handleJumpIfLt_callStack, handleJumpIfGe_callStack, handleJumpIfLe_callStack, handleJumpIfEq_callStack, handleJumpIfNe_callStack, handleJumpIfAbove_callStack, handleJumpIfBelow_callStack, handleJumpIfAe_callStack, handleJumpIfBe_callStack, handleSyscall_ctx_callStack] <;> try omega
  case Nop =>
    rw [Except.ok.injEq] at h
    subst h
    constructor <;> intros <;> simp [setReg_callStack, handleAdd_callStack, handleSub_callStack, handleMul_callStack, handleAddAssign_callStack, handleSubAssign_callStack, handleMulAssign_callStack, handleAnd_callStack, handleOr_callStack, handleXor_callStack, handleNot_callStack, handleShl_callStack, handleShr_callStack, handleLoadImm_callStack, handleMove_callStack, handleSwap_callStack, handleJump_callStack, handleCompare_callStack, handleJumpIfZero_callStack, handleJumpIfNotZero_callStack, handleJumpIfGt_callStack, handleJumpIfLt_callStack, handleJumpIfGe_callStack, handleJumpIfLe_callStack, handleJumpIfEq_callStack, handleJumpIfNe_callStack, handleJumpIfAbove_callStack, handleJumpIfBelow_callStack, handleJumpIfAe_callStack, handleJumpIfBe_callStack, handleSyscall_ctx_callStack] <;> try omega
  case LoadImm =>
    rw [Except.ok.injEq] at h
    subst h
    constructor <;> intros <;> simp [setReg_callStack, handleAdd_callStack, handleSub_callStack, handleMul_callStack, handleAddAssign_callStack, handleSubAssign_callStack, handleMulAssign_callStack, handleAnd_callStack, handleOr_callStack, handleXor_callStack, handleNot_callStack, handleShl_callStack, handleShr_callStack, handleLoadImm_callStack, handleMove_callStack, handleSwap_callStack, handleJump_callStack, handleCompare_callStack, handleJumpIfZero_callStack, handleJumpIfNotZero_callStack, handleJumpIfGt_callStack, handleJumpIfLt_callStack, handleJumpIfGe_callStack, handleJumpIfLe_callStack, handleJumpIfEq_callStack, handleJumpIfNe_callStack, handleJumpIfAbove_callStack, handleJumpIfBelow_callStack, handleJumpIfAe_callStack, handleJumpIfBe_callStack, handleSyscall_ctx_callStack] <;> try omega
  case Move =>
    rw [Except.ok.injEq] at h
    subst h
    constructor <;> intros <;> simp [setReg_callStack, handleAdd_callStack, handleSub_callStack, handleMul_callStack, handleAddAssign_callStack, handleSubAssign_callStack, handleMulAssign_callStack, handleAnd_callStack, handleOr_callStack, handleXor_callStack, handleNot_callStack, handleShl_callStack, handleShr_callStack, handleLoadImm_callStack, handleMove_callStack, handleSwap_callStack, handleJump_callStack, handleCompare_callStack, handleJumpIfZero_callStack, handleJumpIfNotZero_callStack, handleJumpIfGt_callStack, handleJumpIfLt_callStack, handleJumpIfGe_callStack, handleJumpIfLe_callStack, handleJumpIfEq_callStack, handleJumpIfNe_callStack, handleJumpIfAbove_callStack, handleJumpIfBelow_callStack, handleJumpIfAe_callStack, handleJumpIfBe_callStack, handleSyscall_ctx_callStack] <;> try omega
  case Swap =>
    rw [Except.ok.injEq] at h
    subst h
    constructor <;> intros <;> simp [setReg_callStack, handleAdd_callStack, handleSub_callStack, handleMul_callStack, handleAddAssign_callStack, handleSubAssign_callStack, handleMulAssign_callStack, handleAnd_callStack, handleOr_callStack, handleXor_callStack, handleNot_callStack, handleShl_callStack, handleShr_callStack, handleLoadImm_callStack, handleMove_callStack, handleSwap_callStack, handleJump_callStack, handleCompare_callStack, handleJumpIfZero_callStack, handleJumpIfNotZero_callStack, handleJumpIfGt_callStack, handleJumpIfLt_callStack, handleJumpIfGe_callStack, handleJumpIfLe_callStack, handleJumpIfEq_callStack, handleJumpIfNe_callStack, handleJumpIfAbove_callStack, handleJumpIfBelow_callStack, handleJumpIfAe_callStack, handleJumpIfBe_callStack, handleSyscall_ctx_callStack] <;> try omega
  case Add =>
    rw [Except.ok.injEq] at h
    subst h
    constructor <;> intros <;> simp [setReg_callStack, handleAdd_callStack, handleSub_callStack, handleMul_callStack, handleAddAssign_callStack, handleSubAssign_callStack, handleMulAssign_callStack, handleAnd_callStack, handleOr_callStack, handleXor_callStack, handleNot_callStack, handleShl_callStack, handleShr_callStack, handleLoadImm_callStack, handleMove_callStack, handleSwap_callStack, handleJump_callStack, handleCompare_callStack, handleJumpIfZero_callStack, handleJumpIfNotZero_callStack, handleJumpIfGt_callStack, handleJumpIfLt_callStack, handleJumpIfGe_callStack, handleJumpIfLe_callStack, handleJumpIfEq_callStack, handleJumpIfNe_callStack, handleJumpIfAbove_callStack, handleJumpIfBelow_callStack, handleJumpIfAe_callStack, handleJumpIfBe_callStack, handleSyscall_ctx_callStack] <;> try omega
  case Sub =>
    rw [Except.ok.injEq] at h
    subst h
    constructor <;> intros <;> simp [setReg_callStack, handleAdd_callStack, handleSub_callStack, handleMul_callStack, handleAddAssign_callStack, handleSubAssign_callStack, handleMulAssign_callStack, handleAnd_callStack, handleOr_callStack, handleXor_callStack, handleNot_callStack, handleShl_callStack, handleShr_callStack, handleLoadImm_callStack, handleMove_callStack, handleSwap_callStack, handleJump_callStack, handleCompare_callStack, handleJumpIfZero_callStack, handleJumpIfNotZero_callStack, handleJumpIfGt_callStack, handleJumpIfLt_callStack, handleJumpIfGe_callStack, handleJumpIfLe_callStack, handleJumpIfEq_callStack, handleJumpIfNe_callStack, handleJumpIfAbove_callStack, handleJumpIfBelow_callStack, handleJumpIfAe_callStack, handleJumpIfBe_callStack, handleSyscall_ctx_callStack] <;> try omega
  case Mul =>
    rw [Except.ok.injEq] at h
    subst h
    constructor <;> intros <;> simp [setReg_callStack, handleAdd_callStack, handleSub_callStack, handleMul_callStack, handleAddAssign_callStack, handleSubAssign_callStack, handleMulAssign_callStack, handleAnd_callStack, handleOr_callStack, handleXor_callStack, handleNot_callStack, handleShl_callStack, handleShr_callStack, handleLoadImm_callStack, handleMove_callStack, handleSwap_callStack, handleJump_callStack, handleCompare_callStack, handleJumpIfZero_callStack, handleJumpIfNotZero_callStack, handleJumpIfGt_callStack, handleJumpIfLt_callStack, handleJumpIfGe_callStack, handleJumpIfLe_callStack, handleJumpIfEq_callStack, handleJumpIfNe_callStack, handleJumpIfAbove_callStack, handleJumpIfBelow_callStack, handleJumpIfAe_callStack, handleJumpIfBe_callStack, handleSyscall_ctx_callStack] <;> try omega
  case AddAssign =>
    rw [Except.ok.injEq] at h
    subst h
    constructor <;> intros <;> simp [setReg_callStack, handleAdd_callStack, handleSub_callStack, handleMul_callStack, handleAddAssign_callStack, handleSubAssign_callStack, handleMulAssign_callStack, handleAnd_callStack, handleOr_callStack, handleXor_callStack, handleNot_callStack, handleShl_callStack, handleShr_callStack, handleLoadImm_callStack, handleMove_callStack, handleSwap_callStack, handleJump_callStack, handleCompare_callStack, handleJumpIfZero_callStack, handleJumpIfNotZero_callStack, handleJumpIfGt_callStack, handleJumpIfLt_callStack, handleJumpIfGe_callStack, handleJumpIfLe_callStack, handleJumpIfEq_callStack, handleJumpIfNe_callStack, handleJumpIfAbove_callStack, handleJumpIfBelow_callStack, handleJumpIfAe_callStack, handleJumpIfBe_callStack, handleSyscall_ctx_callStack] <;> try omega
  case SubAssign =>
    rw [Except.ok.injEq] at h
    subst h
    constructor <;> intros <;> simp [setReg_callStack, handleAdd_callStack, handleSub_callStack, handleMul_callStack, handleAddAssign_callStack, handleSubAssign_callStack, handleMulAssign_callStack, handleAnd_callStack, handleOr_callStack, handleXor_callStack, handleNot_callStack, handleShl_callStack, handleShr_callStack, handleLoadImm_callStack, handleMove_callStack, handleSwap_callStack, handleJump_callStack, handleCompare_callStack, handleJumpIfZero_callStack, handleJumpIfNotZero_callStack, handleJumpIfGt_callStack, handleJumpIfLt_callStack, handleJumpIfGe_callStack, handleJumpIfLe_callStack, handleJumpIfEq_callStack, handleJumpIfNe_callStack, handleJumpIfAbove_callStack, handleJumpIfBelow_callStack, handleJumpIfAe_callStack, handleJumpIfBe_callStack, handleSyscall_ctx_callStack] <;> try omega
  case MulAssign =>
    rw [Except.ok.injEq] at h
    subst h
    constructor <;> intros <;> simp [setReg_callStack, handleAdd_callStack, handleSub_callStack, handleMul_callStack, handleAddAssign_callStack, handleSubAssign_callStack, handleMulAssign_callStack, handleAnd_callStack, handleOr_callStack, handleXor_callStack, handleNot_callStack, handleShl_callStack, handleShr_callStack, handleLoadImm_callStack, handleMove_callStack, handleSwap_callStack, handleJump_callStack, handleCompare_callStack, handleJumpIfZero_callStack, handleJumpIfNotZero_callStack, handleJumpIfGt_callStack, handleJumpIfLt_callStack, handleJumpIfGe_callStack, handleJumpIfLe_callStack, handleJumpIfEq_callStack, handleJumpIfNe_callStack, handleJumpIfAbove_callStack, handleJumpIfBelow_callStack, handleJumpIfAe_callStack, handleJumpIfBe_callStack, handleSyscall_ctx_callStack] <;> try omega
  case And =>
    rw [Except.ok.injEq] at h
    subst h
    constructor <;> intros <;> simp [setReg_callStack, handleAdd_callStack, handleSub_callStack, handleMul_callStack, handleAddAssign_callStack, handleSubAssign_callStack, handleMulAssign_callStack, handleAnd_callStack, handleOr_callStack, handleXor_callStack, handleNot_callStack, handleShl_callStack, handleShr_callStack, handleLoadImm_callStack, handleMove_callStack, handleSwap_callStack, handleJump_callStack, handleCompare_callStack, handleJumpIfZero_callStack, handleJumpIfNotZero_callStack, handleJumpIfGt_callStack, handleJumpIfLt_callStack, handleJumpIfGe_callStack, handleJumpIfLe_callStack, handleJumpIfEq_callStack, handleJumpIfNe_callStack, handleJumpIfAbove_callStack, handleJumpIfBelow_callStack, handleJumpIfAe_callStack, handleJumpIfBe_callStack, handleSyscall_ctx_callStack] <;> try omega
  case Or =>
    rw [Except.ok.injEq] at h
    subst h
    constructor <;> intros <;> simp [setReg_callStack, handleAdd_callStack, handleSub_callStack, handleMul_callStack, handleAddAssign_callStack, handleSubAssign_callStack, handleMulAssign_callStack, handleAnd_callStack, handleOr_callStack, handleXor_callStack, handleNot_callStack, handleShl_callStack, handleShr_callStack, handleLoadImm_callStack, handleMove_callStack, handleSwap_callStack, handleJump_callStack, handleCompare_callStack, handleJumpIfZero_callStack, handleJumpIfNotZero_callStack, handleJumpIfGt_callStack, handleJumpIfLt_callStack, handleJumpIfGe_callStack, handleJumpIfLe_callStack, handleJumpIfEq_callStack, handleJumpIfNe_callStack, handleJumpIfAbove_callStack, handleJumpIfBelow_callStack, handleJumpIfAe_callStack, handleJumpIfBe_callStack, handleSyscall_ctx_callStack] <;> try omega
  case Xor =>
    rw [Except.ok.injEq] at h
    subst h
    constructor <;> intros <;> simp [setReg_callStack, handleAdd_callStack, handleSub_callStack, handleMul_callStack, handleAddAssign_callStack, handleSubAssign_callStack, handleMulAssign_callStack, handleAnd_callStack, handleOr_callStack, handleXor_callStack, handleNot_callStack, handleShl_callStack, handleShr_callStack, handleLoadImm_callStack, handleMove_callStack, handleSwap_callStack, handleJump_callStack, handleCompare_callStack, handleJumpIfZero_callStack, handleJumpIfNotZero_callStack, handleJumpIfGt_callStack, handleJumpIfLt_callStack, handleJumpIfGe_callStack, handleJumpIfLe_callStack, handleJumpIfEq_callStack, handleJumpIfNe_callStack, handleJumpIfAbove_callStack, handleJumpIfBelow_callStack, handleJumpIfAe_callStack, handleJumpIfBe_callStack, handleSyscall_ctx_callStack] <;> try omega
  case Not =>
    rw [Except.ok.injEq] at h
    subst h
    constructor <;> intros <;> simp [setReg_callStack, handleAdd_callStack, handleSub_callStack, handleMul_callStack, handleAddAssign_callStack, handleSubAssign_callStack, handleMulAssign_callStack, handleAnd_callStack, handleOr_callStack, handleXor_callStack, handleNot_callStack, handleShl_callStack, handleShr_callStack, handleLoadImm_callStack, handleMove_callStack, handleSwap_callStack, handleJump_callStack, handleCompare_callStack, handleJumpIfZero_callStack, handleJumpIfNotZero_callStack, handleJumpIfGt_callStack, handleJumpIfLt_callStack, handleJumpIfGe_callStack, handleJumpIfLe_callStack, handleJumpIfEq_callStack, handleJumpIfNe_callStack, handleJumpIfAbove_callStack, handleJumpIfBelow_callStack, handleJumpIfAe_callStack, handleJumpIfBe_callStack, handleSyscall_ctx_callStack] <;> try omega
  case Shl =>
    rw [Except.ok.injEq] at h
    subst h
    constructor <;> intros <;> simp [setReg_callStack, handleAdd_callStack, handleSub_callStack, handleMul_callStack, handleAddAssign_callStack, handleSubAssign_callStack, handleMulAssign_callStack, handleAnd_callStack, handleOr_callStack, handleXor_callStack, handleNot_callStack, handleShl_callStack, handleShr_callStack, handleLoadImm_callStack, handleMove_callStack, handleSwap_callStack, handleJump_callStack, handleCompare_callStack, handleJumpIfZero_callStack, handleJumpIfNotZero_callStack, handleJumpIfGt_callStack, handleJumpIfLt_callStack, handleJumpIfGe_callStack, handleJumpIfLe_callStack, handleJumpIfEq_callStack, handleJumpIfNe_callStack, handleJumpIfAbove_callStack, handleJumpIfBelow_callStack, handleJumpIfAe_callStack, handleJumpIfBe_callStack, handleSyscall_ctx_callStack] <;> try omega
  case Shr =>
    rw [Except.ok.injEq] at h
    subst h
    constructor <;> intros <;> simp [setReg_callStack, handleAdd_callStack, handleSub_callStack, handleMul_callStack, handleAddAssign_callStack, handleSubAssign_callStack, handleMulAssign_callStack, handleAnd_callStack, handleOr_callStack, handleXor_callStack, handleNot_callStack, handleShl_callStack, handleShr_callStack, handleLoadImm_callStack, handleMove_callStack, handleSwap_callStack, handleJump_callStack, handleCompare_callStack, handleJumpIfZero_callStack, handleJumpIfNotZero_callStack, handleJumpIfGt_callStack, handleJumpIfLt_callStack, handleJumpIfGe_callStack, handleJumpIfLe_callStack, handleJumpIfEq_callStack, handleJumpIfNe_callStack, handleJumpIfAbove_callStack, handleJumpIfBelow_callStack, handleJumpIfAe_callStack, handleJumpIfBe_callStack, handleSyscall_ctx_callStack] <;> try omega
  case Jump =>
    rw [Except.ok.injEq] at h
    subst h
    constructor <;> intros <;> simp [setReg_callStack, handleAdd_callStack, handleSub_callStack, handleMul_callStack, handleAddAssign_callStack, handleSubAssign_callStack, handleMulAssign_callStack, handleAnd_callStack, handleOr_callStack, handleXor_callStack, handleNot_callStack, handleShl_callStack, handleShr_callStack, handleLoadImm_callStack, handleMove_callStack, handleSwap_callStack, handleJump_callStack, handleCompare_callStack, handleJumpIfZero_callStack, handleJumpIfNotZero_callStack, handleJumpIfGt_callStack, handleJumpIfLt_callStack, handleJumpIfGe_callStack, handleJumpIfLe_callStack, handleJumpIfEq_callStack, handleJumpIfNe_callStack, handleJumpIfAbove_callStack, handleJumpIfBelow_callStack, handleJumpIfAe_callStack, handleJumpIfBe_callStack, handleSyscall_ctx_callStack] <;> try omega
  case Compare =>
    rw [Except.ok.injEq] at h
    subst h
    constructor <;> intros <;> simp [setReg_callStack, handleAdd_callStack, handleSub_callStack, handleMul_callStack, handleAddAssign_callStack, handleSubAssign_callStack, handleMulAssign_callStack, handleAnd_callStack, handleOr_callStack, handleXor_callStack, handleNot_callStack, handleShl_callStack, handleShr_callStack, handleLoadImm_callStack, handleMove_callStack, handleSwap_callStack, handleJump_callStack, handleCompare_callStack, handleJumpIfZero_callStack, handleJumpIfNotZero_callStack, handleJumpIfGt_callStack, handleJumpIfLt_callStack, handleJumpIfGe_callStack, handleJumpIfLe_callStack, handleJumpIfEq_callStack, handleJumpIfNe_callStack, handleJumpIfAbove_callStack, handleJumpIfBelow_callStack, handleJumpIfAe_callStack, handleJumpIfBe_callStack, handleSyscall_ctx_callStack] <;> try omega
  case JumpIfZero =>
    rw [Except.ok.injEq] at h
    subst h
    constructor <;> intros <;> simp [setReg_callStack, handleAdd_callStack, handleSub_callStack, handleMul_callStack, handleAddAssign_callStack, handleSubAssign_callStack, handleMulAssign_callStack, handleAnd_callStack, handleOr_callStack, handleXor_callStack, handleNot_callStack, handleShl_callStack, handleShr_callStack, handleLoadImm_callStack, handleMove_callStack, handleSwap_callStack, handleJump_callStack, handleCompare_callStack, handleJumpIfZero_callStack, handleJumpIfNotZero_callStack, handleJumpIfGt_callStack, handleJumpIfLt_callStack, handleJumpIfGe_callStack, handleJumpIfLe_callStack, handleJumpIfEq_callStack, handleJumpIfNe_callStack, handleJumpIfAbove_callStack, handleJumpIfBelow_callStack, handleJumpIfAe_callStack, handleJumpIfBe_callStack, handleSyscall_ctx_callStack] <;> try omega
  case JumpIfNotZero =>
    rw [Except.ok.injEq] at h
    subst h
    constructor <;> intros <;> simp [setReg_callStack, handleAdd_callStack, handleSub_callStack, handleMul_callStack, handleAddAssign_callStack, handleSubAssign_callStack, handleMulAssign_callStack, handleAnd_callStack, handleOr_callStack, handleXor_callStack, handleNot_callStack, handleShl_callStack, handleShr_callStack, handleLoadImm_callStack, handleMove_callStack, handleSwap_callStack, handleJump_callStack, handleCompare_callStack, handleJumpIfZero_callStack, handleJumpIfNotZero_callStack, handleJumpIfGt_callStack, handleJumpIfLt_callStack, handleJumpIfGe_callStack, handleJumpIfLe_callStack, handleJumpIfEq_callStack, handleJumpIfNe_callStack, handleJumpIfAbove_callStack, handleJumpIfBelow_callStack, handleJumpIfAe_callStack, handleJumpIfBe_callStack, handleSyscall_ctx_callStack] <;> try omega
  case JumpIfGt =>
    rw [Except.ok.injEq] at h
    subst h
    constructor <;> intros <;> simp [setReg_callStack, handleAdd_callStack, handleSub_callStack, handleMul_callStack, handleAddAssign_callStack, handleSubAssign_callStack, handleMulAssign_callStack, handleAnd_callStack, handleOr_callStack, handleXor_callStack, handleNot_callStack, handleShl_callStack, handleShr_callStack, handleLoadImm_callStack, handleMove_callStack, handleSwap_callStack, handleJump_callStack, handleCompare_callStack, handleJumpIfZero_callStack, handleJumpIfNotZero_callStack, handleJumpIfGt_callStack, handleJumpIfLt_callStack, handleJumpIfGe_callStack, handleJumpIfLe_callStack, handleJumpIfEq_callStack, handleJumpIfNe_callStack, handleJumpIfAbove_callStack, handleJumpIfBelow_callStack, handleJumpIfAe_callStack, handleJumpIfBe_callStack, handleSyscall_ctx_callStack] <;> try omega
  case JumpIfLt =>
    rw [Except.ok.injEq] at h
    subst h
    constructor <;> intros <;> simp [setReg_callStack, handleAdd_callStack, handleSub_callStack, handleMul_callStack, handleAddAssign_callStack, handleSubAssign_callStack, handleMulAssign_callStack, handleAnd_callStack, handleOr_callStack, handleXor_callStack, handleNot_callStack, handleShl_callStack, handleShr_callStack, handleLoadImm_callStack, handleMove_callStack, handleSwap_callStack, handleJump_callStack, handleCompare_callStack, handleJumpIfZero_callStack, handleJumpIfNotZero_callStack, handleJumpIfGt_callStack, handleJumpIfLt_callStack, handleJumpIfGe_callStack, handleJumpIfLe_callStack, handleJumpIfEq_callStack, handleJumpIfNe_callStack, handleJumpIfAbove_callStack, handleJumpIfBelow_callStack, handleJumpIfAe_callStack, handleJumpIfBe_callStack, handleSyscall_ctx_callStack] <;> try omega
  case JumpIfGe =>
    rw [Except.ok.injEq] at h
    subst h
    constructor <;> intros <;> simp [setReg_callStack, handleAdd_callStack, handleSub_callStack, handleMul_callStack, handleAddAssign_callStack, handleSubAssign_callStack, handleMulAssign_callStack, handleAnd_callStack, handleOr_callStack, handleXor_callStack, handleNot_callStack, handleShl_callStack, handleShr_callStack, handleLoadImm_callStack, handleMove_callStack, handleSwap_callStack, handleJump_callStack, handleCompare_callStack, handleJumpIfZero_callStack, handleJumpIfNotZero_callStack, handleJumpIfGt_callStack, handleJumpIfLt_callStack, handleJumpIfGe_callStack, handleJumpIfLe_callStack, handleJumpIfEq_callStack, handleJumpIfNe_callStack, handleJumpIfAbove_callStack, handleJumpIfBelow_callStack, handleJumpIfAe_callStack, handleJumpIfBe_callStack, handleSyscall_ctx_callStack] <;> try omega
  case JumpIfLe =>
    rw [Except.ok.injEq] at h
    subst h
    constructor <;> intros <;> simp [setReg_callStack, handleAdd_callStack, handleSub_callStack, handleMul_callStack, handleAddAssign_callStack, handleSubAssign_callStack, handleMulAssign_callStack, handleAnd_callStack, handleOr_callStack, handleXor_callStack, handleNot_callStack, handleShl_callStack, handleShr_callStack, handleLoadImm_callStack, handleMove_callStack, handleSwap_callStack, handleJump_callStack, handleCompare_callStack, handleJumpIfZero_callStack, handleJumpIfNotZero_callStack, handleJumpIfGt_callStack, handleJumpIfLt_callStack, handleJumpIfGe_callStack, handleJumpIfLe_callStack, handleJumpIfEq_callStack, handleJumpIfNe_callStack, handleJumpIfAbove_callStack, handleJumpIfBelow_callStack, handleJumpIfAe_callStack, handleJumpIfBe_callStack, handleSyscall_ctx_callStack] <;> try omega
  case JumpIfEq =>
    rw [Except.ok.injEq] at h
    subst h
    constructor <;> intros <;> simp [setReg_callStack, handleAdd_callStack, handleSub_callStack, handleMul_callStack, handleAddAssign_callStack, handleSubAssign_callStack, handleMulAssign_callStack, handleAnd_callStack, handleOr_callStack, handleXor_callStack, handleNot_callStack, handleShl_callStack, handleShr_callStack, handleLoadImm_callStack, handleMove_callStack, handleSwap_callStack, handleJump_callStack, handleCompare_callStack, handleJumpIfZero_callStack, handleJumpIfNotZero_callStack, handleJumpIfGt_callStack, handleJumpIfLt_callStack, handleJumpIfGe_callStack, handleJumpIfLe_callStack, handleJumpIfEq_callStack, handleJumpIfNe_callStack, handleJumpIfAbove_callStack, handleJumpIfBelow_callStack, handleJumpIfAe_callStack, handleJumpIfBe_callStack, handleSyscall_ctx_callStack] <;> try omega
  case JumpIfNe =>
    rw [Except.ok.injEq] at h
    subst h
    constructor <;> intros <;> simp [setReg_callStack, handleAdd_callStack, handleSub_callStack, handleMul_callStack, handleAddAssign_callStack, handleSubAssign_callStack, handleMulAssign_callStack, handleAnd_callStack, handleOr_callStack, handleXor_callStack, handleNot_callStack, handleShl_callStack, handleShr_callStack, handleLoadImm_callStack, handleMove_callStack, handleSwap_callStack, handleJump_callStack, handleCompare_callStack, handleJumpIfZero_callStack, handleJumpIfNotZero_callStack, handleJumpIfGt_callStack, handleJumpIfLt_callStack, handleJumpIfGe_callStack, handleJumpIfLe_callStack, handleJumpIfEq_callStack, handleJumpIfNe_callStack, handleJumpIfAbove_callStack, handleJumpIfBelow_callStack, handleJumpIfAe_callStack, handleJumpIfBe_callStack, handleSyscall_ctx_callStack] <;> try omega
  case JumpIfAbove =>
    rw [Except.ok.injEq] at h
    subst h
    constructor <;> intros <;> simp [setReg_callStack, handleAdd_callStack, handleSub_callStack, handleMul_callStack, handleAddAssign_callStack, handleSubAssign_callStack, handleMulAssign_callStack, handleAnd_callStack, handleOr_callStack, handleXor_callStack, handleNot_callStack, handleShl_callStack, handleShr_callStack, handleLoadImm_callStack, handleMove_callStack, handleSwap_callStack, handleJump_callStack, handleCompare_callStack, handleJumpIfZero_callStack, handleJumpIfNotZero_callStack, handleJumpIfGt_callStack, handleJumpIfLt_callStack, handleJumpIfGe_callStack, handleJumpIfLe_callStack, handleJumpIfEq_callStack, handleJumpIfNe_callStack, handleJumpIfAbove_callStack, handleJumpIfBelow_callStack, handleJumpIfAe_callStack, handleJumpIfBe_callStack, handleSyscall_ctx_callStack] <;> try omega
  case JumpIfBelow =>
    rw [Except.ok.injEq] at h
    subst h
    constructor <;> intros <;> simp [setReg_callStack, handleAdd_callStack, handleSub_callStack, handleMul_callStack, handleAddAssign_callStack, handleSubAssign_callStack, handleMulAssign_callStack, handleAnd_callStack, handleOr_callStack, handleXor_callStack, handleNot_callStack, handleShl_callStack, handleShr_callStack, handleLoadImm_callStack, handleMove_callStack, handleSwap_callStack, handleJump_callStack, handleCompare_callStack, handleJumpIfZero_callStack, handleJumpIfNotZero_callStack, handleJumpIfGt_callStack, handleJumpIfLt_callStack, handleJumpIfGe_callStack, handleJumpIfLe_callStack, handleJumpIfEq_callStack, handleJumpIfNe_callStack, handleJumpIfAbove_callStack, handleJumpIfBelow_callStack, handleJumpIfAe_callStack, handleJumpIfBe_callStack, handleSyscall_ctx_callStack] <;> try omega
  case JumpIfAe =>
    rw [Except.ok.injEq] at h
    subst h
    constructor <;> intros <;> simp [setReg_callStack, handleAdd_callStack, handleSub_callStack, handleMul_callStack, handleAddAssign_callStack, handleSubAssign_callStack, handleMulAssign_callStack, handleAnd_callStack, handleOr_callStack, handleXor_callStack, handleNot_callStack, handleShl_callStack, handleShr_callStack, handleLoadImm_callStack, handleMove_callStack, handleSwap_callStack, handleJump_callStack, handleCompare_callStack, handleJumpIfZero_callStack, handleJumpIfNotZero_callStack, handleJumpIfGt_callStack, handleJumpIfLt_callStack, handleJumpIfGe_callStack, handleJumpIfLe_callStack, handleJumpIfEq_callStack, handleJumpIfNe_callStack, handleJumpIfAbove_callStack, handleJumpIfBelow_callStack, handleJumpIfAe_callStack, handleJumpIfBe_callStack, handleSyscall_ctx_callStack] <;> try omega
  case JumpIfBe =>
    rw [Except.ok.injEq] at h
    subst h
    constructor <;> intros <;> simp [setReg_callStack, handleAdd_callStack, handleSub_callStack, handleMul_callStack, handleAddAssign_callStack, handleSubAssign_callStack, handleMulAssign_callStack, handleAnd_callStack, handleOr_callStack, handleXor_callStack, handleNot_callStack, handleShl_callStack, handleShr_callStack, handleLoadImm_callStack, handleMove_callStack, handleSwap_callStack, handleJump_callStack, handleCompare_callStack, handleJumpIfZero_callStack, handleJumpIfNotZero_callStack, handleJumpIfGt_callStack, handleJumpIfLt_callStack, handleJumpIfGe_callStack, handleJumpIfLe_callStack, handleJumpIfEq_callStack, handleJumpIfNe_callStack, handleJumpIfAbove_callStack, handleJumpIfBelow_callStack, handleJumpIfAe_callStack, handleJumpIfBe_callStack, handleSyscall_ctx_callStack] <;> try omega
  case Syscall =>
    rw [Except.ok.injEq] at h
    subst h
    constructor <;> intros <;> simp [setReg_callStack, handleAdd_callStack, handleSub_callStack, handleMul_callStack, handleAddAssign_callStack, handleSubAssign_callStack, handleMulAssign_callStack, handleAnd_callStack, handleOr_callStack, handleXor_callStack, handleNot_callStack, handleShl_callStack, handleShr_callStack, handleLoadImm_callStack, handleMove_callStack, handleSwap_callStack, handleJump_callStack, handleCompare_callStack, handleJumpIfZero_callStack, handleJumpIfNotZero_callStack, handleJumpIfGt_callStack, handleJumpIfLt_callStack, handleJumpIfGe_callStack, handleJumpIfLe_callStack, handleJumpIfEq_callStack, handleJumpIfNe_callStack, handleJumpIfAbove_callStack, handleJumpIfBelow_callStack, handleJumpIfAe_callStack, handleJumpIfBe_callStack, handleSyscall_ctx_callStack] <;> try omega
  case Push =>
    split at h
    · rw [Except.ok.injEq] at h
      subst h
      constructor <;> intros <;> simp [setReg_callStack, handleAdd_callStack, handleSub_callStack, handleMul_callStack, handleAddAssign_callStack, handleSubAssign_callStack, handleMulAssign_callStack, handleAnd_callStack, handleOr_callStack, handleXor_callStack, handleNot_callStack, handleShl_callStack, handleShr_callStack, handleLoadImm_callStack, handleMove_callStack, handleSwap_callStack, handleJump_callStack, handleCompare_callStack, handleJumpIfZero_callStack, handleJumpIfNotZero_callStack, handleJumpIfGt_callStack, handleJumpIfLt_callStack, handleJumpIfGe_callStack, handleJumpIfLe_callStack, handleJumpIfEq_callStack, handleJumpIfNe_callStack, handleJumpIfAbove_callStack, handleJumpIfBelow_callStack, handleJumpIfAe_callStack, handleJumpIfBe_callStack, handleSyscall_ctx_callStack] <;> try omega
    · exact absurd h (by simp)
  case Pop =>
    split at h
    · rw [Except.ok.injEq] at h
      subst h
      constructor <;> intros <;> simp [setReg_callStack, handleAdd_callStack, handleSub_callStack, handleMul_callStack, handleAddAssign_callStack, handleSubAssign_callStack, handleMulAssign_callStack, handleAnd_callStack, handleOr_callStack, handleXor_callStack, handleNot_callStack, handleShl_callStack, handleShr_callStack, handleLoadImm_callStack, handleMove_callStack, handleSwap_callStack, handleJump_callStack, handleCompare_callStack, handleJumpIfZero_callStack, handleJumpIfNotZero_callStack, handleJumpIfGt_callStack, handleJumpIfLt_callStack, handleJumpIfGe_callStack, handleJumpIfLe_callStack, handleJumpIfEq_callStack, handleJumpIfNe_callStack, handleJumpIfAbove_callStack, handleJumpIfBelow_callStack, handleJumpIfAe_callStack, handleJumpIfBe_callStack, handleSyscall_ctx_callStack] <;> try omega
    · exact absurd h (by simp)
  case Peek =>
    split at h
    · rw [Except.ok.injEq] at h
      subst h
      constructor <;> intros <;> simp [setReg_callStack, handleAdd_callStack, handleSub_callStack, handleMul_callStack, handleAddAssign_callStack, handleSubAssign_callStack, handleMulAssign_callStack, handleAnd_callStack, handleOr_callStack, handleXor_callStack, handleNot_callStack, handleShl_callStack, handleShr_callStack, handleLoadImm_callStack, handleMove_callStack, handleSwap_callStack, handleJump_callStack, handleCompare_callStack, handleJumpIfZero_callStack, handleJumpIfNotZero_callStack, handleJumpIfGt_callStack, handleJumpIfLt_callStack, handleJumpIfGe_callStack, handleJumpIfLe_callStack, handleJumpIfEq_callStack, handleJumpIfNe_callStack, handleJumpIfAbove_callStack, handleJumpIfBelow_callStack, handleJumpIfAe_callStack, handleJumpIfBe_callStack, handleSyscall_ctx_callStack] <;> try omega
    · exact absurd h (by simp)
  case Load =>
    split at h
    · rw [Except.ok.injEq] at h
      subst h
      constructor <;> intros <;> simp [setReg_callStack, handleAdd_callStack, handleSub_callStack, handleMul_callStack, handleAddAssign_callStack, handleSubAssign_callStack, handleMulAssign_callStack, handleAnd_callStack, handleOr_callStack, handleXor_callStack, handleNot_callStack, handleShl_callStack, handleShr_callStack, handleLoadImm_callStack, handleMove_callStack, handleSwap_callStack, handleJump_callStack, handleCompare_callStack, handleJumpIfZero_callStack, handleJumpIfNotZero_callStack, handleJumpIfGt_callStack, handleJumpIfLt_callStack, handleJumpIfGe_callStack, handleJumpIfLe_callStack, handleJumpIfEq_callStack, handleJumpIfNe_callStack, handleJumpIfAbove_callStack, handleJumpIfBelow_callStack, handleJumpIfAe_callStack, handleJumpIfBe_callStack, handleSyscall_ctx_callStack] <;> try omega
    · exact absurd h (by simp)
  case Store =>
    split at h
    · rw [Except.ok.injEq] at h
      subst h
      constructor <;> intros <;> simp [setReg_callStack, handleAdd_callStack, handleSub_callStack, handleMul_callStack, handleAddAssign_callStack, handleSubAssign_callStack, handleMulAssign_callStack, handleAnd_callStack, handleOr_callStack, handleXor_callStack, handleNot_callStack, handleShl_callStack, handleShr_callStack, handleLoadImm_callStack, handleMove_callStack, handleSwap_callStack, handleJump_callStack, handleCompare_callStack, handleJumpIfZero_callStack, handleJumpIfNotZero_callStack, handleJumpIfGt_callStack, handleJumpIfLt_callStack, handleJumpIfGe_callStack, handleJumpIfLe_callStack, handleJumpIfEq_callStack, handleJumpIfNe_callStack, handleJumpIfAbove_callStack, handleJumpIfBelow_callStack, handleJumpIfAe_callStack, handleJumpIfBe_callStack, handleSyscall_ctx_callStack] <;> try omega
    · exact absurd h (by simp)
  case LoadIndexed =>
    split at h
    · rw [Except.ok.injEq] at h
      subst h
      constructor <;> intros <;> simp [setReg_callStack, handleAdd_callStack, handleSub_callStack, handleMul_callStack, handleAddAssign_callStack, handleSubAssign_callStack, handleMulAssign_callStack, handleAnd_callStack, handleOr_callStack, handleXor_callStack, handleNot_callStack, handleShl_callStack, handleShr_callStack, handleLoadImm_callStack, handleMove_callStack, handleSwap_callStack, handleJump_callStack, handleCompare_callStack, handleJumpIfZero_callStack, handleJumpIfNotZero_callStack, handleJumpIfGt_callStack, handleJumpIfLt_callStack, handleJumpIfGe_callStack, handleJumpIfLe_callStack, handleJumpIfEq_callStack, handleJumpIfNe_callStack, handleJumpIfAbove_callStack, handleJumpIfBelow_callStack, handleJumpIfAe_callStack, handleJumpIfBe_callStack, handleSyscall_ctx_callStack] <;> try omega
    · exact absurd h (by simp)
  case StoreIndexed =>
    split at h
    · rw [Except.ok.injEq] at h
      subst h
      constructor <;> intros <;> simp [setReg_callStack, handleAdd_callStack, handleSub_callStack, handleMul_callStack, handleAddAssign_callStack, handleSubAssign_callStack, handleMulAssign_callStack, handleAnd_callStack, handleOr_callStack, handleXor_callStack, handleNot_callStack, handleShl_callStack, handleShr_callStack, handleLoadImm_callStack, handleMove_callStack, handleSwap_callStack, handleJump_callStack, handleCompare_callStack, handleJumpIfZero_callStack, handleJumpIfNotZero_callStack, handleJumpIfGt_callStack, handleJumpIfLt_callStack, handleJumpIfGe_callStack, handleJumpIfLe_callStack, handleJumpIfEq_callStack, handleJumpIfNe_callStack, handleJumpIfAbove_callStack, handleJumpIfBelow_callStack, handleJumpIfAe_callStack, handleJumpIfBe_callStack, handleSyscall_ctx_callStack] <;> try omega
    · exact absurd h (by simp)
  case Alloc =>
    split at h
    · rw [Except.ok.injEq] at h
      subst h
      constructor <;> intros <;> simp [setReg_callStack, handleAdd_callStack, handleSub_callStack, handleMul_callStack, handleAddAssign_callStack, handleSubAssign_callStack, handleMulAssign_callStack, handleAnd_callStack, handleOr_callStack, handleXor_callStack, handleNot_callStack, handleShl_callStack, handleShr_callStack, handleLoadImm_callStack, handleMove_callStack, handleSwap_callStack, handleJump_callStack, handleCompare_callStack, handleJumpIfZero_callStack, handleJumpIfNotZero_callStack, handleJumpIfGt_callStack, handleJumpIfLt_callStack, handleJumpIfGe_callStack, handleJumpIfLe_callStack, handleJumpIfEq_callStack, handleJumpIfNe_callStack, handleJumpIfAbove_callStack, handleJumpIfBelow_callStack, handleJumpIfAe_callStack, handleJumpIfBe_callStack, handleSyscall_ctx_callStack] <;> try omega
    · exact absurd h (by simp)
  case Free =>
    split at h
    · rw [Except.ok.injEq] at h
      subst h
      constructor <;> intros <;> simp [setReg_callStack, handleAdd_callStack, handleSub_callStack, handleMul_callStack, handleAddAssign_callStack, handleSubAssign_callStack, handleMulAssign_callStack, handleAnd_callStack, handleOr_callStack, handleXor_callStack, handleNot_callStack, handleShl_callStack, handleShr_callStack, handleLoadImm_callStack, handleMove_callStack, handleSwap_callStack, handleJump_callStack, handleCompare_callStack, handleJumpIfZero_callStack, handleJumpIfNotZero_callStack, handleJumpIfGt_callStack, handleJumpIfLt_callStack, handleJumpIfGe_callStack, handleJumpIfLe_callStack, handleJumpIfEq_callStack, handleJumpIfNe_callStack, handleJumpIfAbove_callStack, handleJumpIfBelow_callStack, handleJumpIfAe_callStack, handleJumpIfBe_callStack, handleSyscall_ctx_callStack] <;> try omega
    · exact absurd h (by simp)
  case MemCopy =>
    split at h
    · rw [Except.ok.injEq] at h
      subst h
      constructor <;> intros <;> simp [setReg_callStack, handleAdd_callStack, handleSub_callStack, handleMul_callStack, handleAddAssign_callStack, handleSubAssign_callStack, handleMulAssign_callStack, handleAnd_callStack, handleOr_callStack, handleXor_callStack, handleNot_callStack, handleShl_callStack, handleShr_callStack, handleLoadImm_callStack, handleMove_callStack, handleSwap_callStack, handleJump_callStack, handleCompare_callStack, handleJumpIfZero_callStack, handleJumpIfNotZero_callStack, handleJumpIfGt_callStack, handleJumpIfLt_callStack, handleJumpIfGe_callStack, handleJumpIfLe_callStack, handleJumpIfEq_callStack, handleJumpIfNe_callStack, handleJumpIfAbove_callStack, handleJumpIfBelow_callStack, handleJumpIfAe_callStack, handleJumpIfBe_callStack, handleSyscall_ctx_callStack] <;> try omega
    · exact absurd h (by simp)
  case MemSet =>
    split at h
    · rw [Except.ok.injEq] at h
      subst h
      constructor <;> intros <;> simp [setReg_callStack, handleAdd_callStack, handleSub_callStack, handleMul_callStack, handleAddAssign_callStack, handleSubAssign_callStack, handleMulAssign_callStack, handleAnd_callStack, handleOr_callStack, handleXor_callStack, handleNot_callStack, handleShl_callStack, handleShr_callStack, handleLoadImm_callStack, handleMove_callStack, handleSwap_callStack, handleJump_callStack, handleCompare_callStack, handleJumpIfZero_callStack, handleJumpIfNotZero_callStack, handleJumpIfGt_callStack, handleJumpIfLt_callStack, handleJumpIfGe_callStack, handleJumpIfLe_callStack, handleJumpIfEq_callStack, handleJumpIfNe_callStack, handleJumpIfAbove_callStack, handleJumpIfBelow_callStack, handleJumpIfAe_callStack, handleJumpIfBe_callStack, handleSyscall_ctx_callStack] <;> try omega
    · exact absurd h (by simp)
  case Div =>
    split at h
    · rename_i ctx2 heq
      rw [Except.ok.injEq] at h
      subst h
      have hcs := handleDiv_ok_callStack _ _ _ _ _ heq
      constructor <;> intros <;> simp [hcs] <;> try omega
    · exact absurd h (by simp)
  case Mod =>
    split at h
    · rename_i ctx2 heq
      rw [Except.ok.injEq] at h
      subst h
      have hcs := handleMod_ok_callStack _ _ _ _ _ heq
      constructor <;> intros <;> simp [hcs] <;> try omega
    · exact absurd h (by simp)
  case DivAssign =>
    split at h
    · rename_i ctx2 heq
      rw [Except.ok.injEq] at h
      subst h
      have hcs := handleDivAssign_ok_callStack _ _ _ _ heq
      constructor <;> intros <;> simp [hcs] <;> try omega
    · exact absurd h (by simp)
  case Call =>
    split at h
    · rename_i ctx2 heq
      rw [Except.ok.injEq] at h
      subst h
      have hcs := handleCall_ok_callStack _ _ _ heq
      constructor
      · simp [hcs.1]
      · intro hge
        have := hcs.2
        simp [hcs.1]
        omega
    · exact absurd h (by simp)
  case Return =>
    split at h
    · rename_i ctx2 heq
      rw [Except.ok.injEq] at h
      subst h
      have hcs := handleReturn_ok_callStack _ _ heq
      constructor <;> intros <;> simp <;> omega
    · exact absurd h (by simp)


theorem vmStep_callStack (prog : List Instruction) (heap : Heap) (hfuel : Nat)
    (st st' : VmState) (h : vmStep prog heap hfuel st = .ok st') :
    st'.ctx.callStack.length ≤ st.ctx.callStack.length + 1 ∧
    (1024 ≤ st.ctx.callStack.length →
      st'.ctx.callStack.length ≤ st.ctx.callStack.length) := by
  unfold vmStep at h
  split at h
  · rw [Except.ok.injEq] at h
    subst h
    exact ⟨by omega, fun _ => le_refl _⟩
  · split at h
    · exact absurd h (by simp)
    · have hx := executeInstruction_callStack heap hfuel _ _ st' h
      exact hx

theorem stepN_callStack (prog : List Instruction) (heap : Heap) (hfuel : Nat) :
    ∀ (n : Nat) (st0 st : VmState),
    st0.ctx.callStack.length ≤ 1024 → stepN prog heap hfuel n st0 = .ok st →
    st.ctx.callStack.length ≤ 1024 := by
  intro n
  induction n with
  | zero =>
    intro st0 st h0 hs
    rw [show stepN prog heap hfuel 0 st0 = .ok st0 from rfl, Except.ok.injEq] at hs
    subst hs
    exact h0
  | succ k ih =>
    intro st0 st h0 hs
    rw [show stepN prog heap hfuel (k + 1) st0 =
      (match vmStep prog heap hfuel st0 with
       | .error e => .error e
       | .ok st1 => stepN prog heap hfuel k st1) from rfl] at hs
    split at hs
    · exact absurd hs (by simp)
    · rename_i st1 heq
      have hb := vmStep_callStack prog heap hfuel st0 st1 heq
      exact ih st1 st (by omega) hs

/-- C6: in every execution state reachable from a reset context the call
stack holds at most 1024 return indices; `Call` pushes the post-increment
pc and jumps only below depth 1024 and otherwise fails with an Execution
error (returning before any mutation); `Return` fails with an Execution
error exactly when the call stack is empty. -/
theorem call_stack_bounded :
    (∀ (prog : List Instruction) (heap : Heap) (hfuel n : Nat) (st0 st : VmState),
      st0.ctx = ExecutionContext.new →
      stepN prog heap hfuel n st0 = .ok st →
      st.ctx.callStack.length ≤ 1024) ∧
    (∀ (ctx : ExecutionContext) (t : Nat), ctx.callStack.length < 1024 →
      handleCall ctx t =
        .ok {ctx with callStack := ctx.pc :: ctx.callStack, pc := t}) ∧
    (∀ (ctx : ExecutionContext) (t : Nat), 1024 ≤ ctx.callStack.length →
      handleCall ctx t =
        .error (.execution "Stack overflow: maximum recursion depth exceeded")) ∧
    (∀ ctx : ExecutionContext,
      (∃ e, handleReturn ctx = .error e) ↔ ctx.callStack = []) := by
  refine ⟨?_, ?_, ?_, ?_⟩
  · intro prog heap hfuel n st0 st h0 hs
    refine stepN_callStack prog heap hfuel n st0 st ?_ hs
    rw [h0]
    show ([] : List Nat).length ≤ 1024
    simp
  · intro ctx t hlt
    unfold handleCall
    rw [if_neg (by unfold maxStackDepth; omega)]
  · intro ctx t hge
    unfold handleCall
    rw [if_pos (by unfold maxStackDepth; omega)]
  · intro ctx
    constructor
    · rintro ⟨e, he⟩
      unfold handleReturn at he
      split at he
      · rename_i heq
        exact heq
      · exact absurd he (by simp)
    · intro hnil
      refine ⟨.execution "Return without matching call", ?_⟩
      unfold handleReturn
      rw [hnil]

/-- Initial VM state for the C6 witness. -/
def st0C6 : VmState :=
  { ctx := ExecutionContext.new, mem := SegMemory.new 65536,
    stack := StackT.new 65536, output := [] }

/-- Witness for C6: two steps of the self-calling program `[Call 0]`
leave a call stack of two entries, within the bound. -/
theorem call_stack_bounded_witness :
    st0C6.ctx = ExecutionContext.new ∧
    stepN [Instruction.Call 0] ⟨0x8000, 0x4000⟩ 1 2 st0C6 =
      .ok { ctx := { registers := fun _ => 0, flags := Flags.new, pc := 0,
                     halted := false, callStack := [1, 1], trace := false },
            mem := SegMemory.new 65536, stack := StackT.new 65536,
            output := [] } ∧
    ({ ctx := { registers := fun _ => 0, flags := Flags.new, pc := 0,
                halted := false, callStack := [1, 1], trace := false },
       mem := SegMemory.new 65536, stack := StackT.new 65536,
       output := [] } : VmState).ctx.callStack.length ≤ 1024 :=
  ⟨rfl, rfl,
   call_stack_bounded.1 [Instruction.Call 0] ⟨0x8000, 0x4000⟩ 1 2 st0C6 _ rfl rfl⟩

/-- C10: a Syscall whose R0 id is outside 1..6 is not an error — the step
succeeds with only the usual pc increment: no register changes, memory is
untouched, and nothing is appended to the output buffer. -/
theorem syscall_unknown_id_continues (prog : List Instruction) (heap : Heap)
    (hfuel : Nat) (st : VmState)
    (hrun : ¬(st.ctx.halted = true ∨ prog.length ≤ st.ctx.pc))
    (hfetch : prog[st.ctx.pc]? = some .Syscall)
    (hid : ¬(1 ≤ st.ctx.getReg .R0 ∧ st.ctx.getReg .R0 ≤ 6)) :
    vmStep prog heap hfuel st =
      .ok {st with ctx := {st.ctx with pc := st.ctx.pc + 1}} := by
  unfold vmStep
  rw [if_neg hrun, hfetch]
  show executeInstruction heap hfuel
    {st with ctx := {st.ctx with pc := st.ctx.pc + 1}} .Syscall = _
  unfold executeInstruction handleSyscall
  dsimp only
  have hg : ({st.ctx with pc := st.ctx.pc + 1} : ExecutionContext).getReg .R0 =
      st.ctx.getReg .R0 := rfl
  rw [hg]
  rw [if_neg (by omega), if_neg (by omega), if_neg (by omega), if_neg (by omega),
    if_neg (by omega), if_neg (by omega)]

/-- VM state for the C10 witness: R0 holds the unknown syscall id 7. -/
def stC10 : VmState :=
  { ctx := { registers := fun r => if r = .R0 then 7 else 0, flags := Flags.new,
             pc := 0, halted := false, callStack := [], trace := false },
    mem := SegMemory.new 256, stack := StackT.new 256, output := [] }

/-- Witness for C10 on the one-instruction program `[Syscall]`. -/
theorem syscall_unknown_id_continues_witness :
    ¬(stC10.ctx.halted = true ∨ [Instruction.Syscall].length ≤ stC10.ctx.pc) ∧
    [Instruction.Syscall][stC10.ctx.pc]? = some .Syscall ∧
    ¬(1 ≤ stC10.ctx.getReg .R0 ∧ stC10.ctx.getReg .R0 ≤ 6) ∧
    vmStep [Instruction.Syscall] ⟨0x8000, 0x4000⟩ 1 stC10 =
      .ok {stC10 with ctx := {stC10.ctx with pc := stC10.ctx.pc + 1}} :=
  ⟨by decide, by decide, by decide,
   syscall_unknown_id_continues [Instruction.Syscall] ⟨0x8000, 0x4000⟩ 1 stC10
     (by decide) (by decide) (by decide)⟩

theorem readStrGo_length {μ : Type} (ma : MemAccess μ) (m : μ) :
    ∀ (r curr : Nat), (readStrGo ma m curr r).length ≤ r := by
  intro r
  induction r with
  | zero =>
    intro curr
    rw [show readStrGo ma m curr 0 = [] from rfl]
    simp
  | succ k ih =>
    intro curr
    rw [show readStrGo ma m curr (k + 1) =
      (match ma.readByte m curr with
       | .error _ => []
       | .ok 0 => []
       | .ok b => b :: readStrGo ma m (curr + 1) k) from rfl]
    split
    · simp
    · simp
    · simp only [List.length_cons]
      have := ih (curr + 1)
      omega

theorem readStrGo_spec {μ : Type} (ma : MemAccess μ) (m : μ) :
    ∀ (r curr : Nat),
    (∀ i, i < (readStrGo ma m curr r).length →
      ma.readByte m (curr + i) = .ok ((readStrGo ma m curr r).getD i 0) ∧
      (readStrGo ma m curr r).getD i 0 ≠ 0) ∧
    ((readStrGo ma m curr r).length < r →
      ma.readByte m (curr + (readStrGo ma m curr r).length) = .ok 0 ∨
      ∃ e, ma.readByte m (curr + (readStrGo ma m curr r).length) = .error e) := by
  intro r
  induction r with
  | zero =>
    intro curr
    constructor
    · intro i hi
      rw [show readStrGo ma m curr 0 = [] from rfl] at hi
      simp at hi
    · intro hlt
      rw [show readStrGo ma m curr 0 = [] from rfl] at hlt
      simp at hlt
  | succ k ih =>
    intro curr
    cases hb : ma.readByte m curr with
    | error e =>
      have hred : readStrGo ma m curr (k + 1) = [] := by
        rw [show readStrGo ma m curr (k + 1) =
          (match ma.readByte m curr with
           | .error _ => []
           | .ok 0 => []
           | .ok b => b :: readStrGo ma m (curr + 1) k) from rfl, hb]
      rw [hred]
      constructor
      · intro i hi
        simp at hi
      · intro _
        right
        refine ⟨e, ?_⟩
        rw [show curr + ([] : List Nat).length = curr from by simp]
        exact hb
    | ok b =>
      cases b with
      | zero =>
        have hred : readStrGo ma m curr (k + 1) = [] := by
          rw [show readStrGo ma m curr (k + 1) =
            (match ma.readByte m curr with
             | .error _ => []
             | .ok 0 => []
             | .ok b => b :: readStrGo ma m (curr + 1) k) from rfl, hb]
        rw [hred]
        constructor
        · intro i hi
          simp at hi
        · intro _
          left
          rw [show curr + ([] : List Nat).length = curr from by simp]
          exact hb
      | succ b' =>
        have hred : readStrGo ma m curr (k + 1) =
            (b' + 1) :: readStrGo ma m (curr + 1) k := by
          rw [show readStrGo ma m curr (k + 1) =
            (match ma.readByte m curr with
             | .error _ => []
             | .ok 0 => []
             | .ok b => b :: readStrGo ma m (curr + 1) k) from rfl, hb]
          rfl
        rw [hred]
        obtain ⟨ih1, ih2⟩ := ih (curr + 1)
        constructor
        · intro i hi
          cases i with
          | zero =>
            refine ⟨?_, by simp⟩
            rw [show curr + 0 = curr from by omega, List.getD_cons_zero]
            exact hb
          | succ j =>
            rw [List.getD_cons_succ,
              show curr + (j + 1) = (curr + 1) + j from by omega]
            refine ih1 j ?_
            simp only [List.length_cons] at hi
            omega
        · intro hlt
          simp only [List.length_cons] at hlt ⊢
          rw [show curr + ((readStrGo ma m (curr + 1) k).length + 1) =
            (curr + 1) + (readStrGo ma m (curr + 1) k).length from by omega]
          exact ih2 (by omega)

/-- C7 (amended): syscall 2 appends exactly one output entry holding the
bytes read from R1 up to (not including) the first NUL or read error, and
at most **1025** bytes — not 1024 — are read and appended, because the
Rust limit check `bytes.len() > 1024` runs only after a byte is pushed. -/
theorem syscall_print_string {μ : Type} (ma : MemAccess μ) (heap : Heap)
    (ctx : ExecutionContext) (m : μ) (output : List OutputItem) (hfuel : Nat)
    (h2 : ctx.getReg .R0 = 2) :
    handleSyscall ma heap ctx m output hfuel =
      (ctx, m, output ++ [.str (readString ma m (ctx.getReg .R1))]) ∧
    (readString ma m (ctx.getReg .R1)).length ≤ 1025 ∧
    (∀ i, i < (readString ma m (ctx.getReg .R1)).length →
      ma.readByte m (ctx.getReg .R1 + i) =
        .ok ((readString ma m (ctx.getReg .R1)).getD i 0) ∧
      (readString ma m (ctx.getReg .R1)).getD i 0 ≠ 0) ∧
    ((readString ma m (ctx.getReg .R1)).length < 1025 →
      ma.readByte m (ctx.getReg .R1 + (readString ma m (ctx.getReg .R1)).length) =
        .ok 0 ∨
      ∃ e, ma.readByte m
        (ctx.getReg .R1 + (readString ma m (ctx.getReg .R1)).length) = .error e) := by
  refine ⟨?_, ?_, (readStrGo_spec ma m 1025 (ctx.getReg .R1)).1,
    (readStrGo_spec ma m 1025 (ctx.getReg .R1)).2⟩
  · unfold handleSyscall
    dsimp only
    rw [h2]
    rw [if_neg (by omega), if_pos rfl]
  · exact readStrGo_length ma m 1025 (ctx.getReg .R1)

/-- All-ones memory: no NUL anywhere. -/
def onesMem : IMem := fun _ => 1

/-- Context for the C7 counterexample and witness: R0 = 2, R1 = 0. -/
def ctxC7 : ExecutionContext :=
  { registers := fun r => if r = .R0 then 2 else 0, flags := Flags.new,
    pc := 0, halted := false, callStack := [], trace := false }

set_option maxRecDepth 100000 in
/-- Counterexample to C7 as stated: on memory with no NUL byte, syscall 2
appends a 1025-byte entry — the scan does not stop after 1024 bytes. -/
theorem syscall_print_string_cex :
    handleSyscall idealMA ⟨0x8000, 0x4000⟩ ctxC7 onesMem [] 1 =
      (ctxC7, onesMem, [.str (readString idealMA onesMem 0)]) ∧
    (readString idealMA onesMem 0).length = 1025 ∧
    ¬((readString idealMA onesMem 0).length ≤ 1024) := by
  refine ⟨rfl, ?_, ?_⟩ <;> decide

/-- Witness for the amended C7 at `ctxC7` over the all-ones memory. -/
theorem syscall_print_string_witness :
    ctxC7.getReg .R0 = 2 ∧
    handleSyscall idealMA ⟨0x8000, 0x4000⟩ ctxC7 onesMem [] 1 =
      (ctxC7, onesMem, [] ++ [.str (readString idealMA onesMem (ctxC7.getReg .R1))]) ∧
    (readString idealMA onesMem (ctxC7.getReg .R1)).length ≤ 1025 :=
  ⟨by decide,
   (syscall_print_string idealMA ⟨0x8000, 0x4000⟩ ctxC7 onesMem [] 1 (by decide)).1,
   (syscall_print_string idealMA ⟨0x8000, 0x4000⟩ ctxC7 onesMem [] 1 (by decide)).2.1⟩

/-- Memory whose heap free list has been corrupted (with three ordinary
`Store` instructions) into a one-block cycle: the header at `0x8000` reads
back as `size = 0`, `free = true`, `next = 0x8000`. -/
def memC8 : SegMemory :=
  { bytes := fun a => if a = 0x8009 then 0x80 else if a = 0x8010 then 1 else 0,
    size := 65536,
    segments := (SegMemory.new 65536).segments }

/-- C8: evidence that `run` does **not** terminate on every program — the
free-list walk of `Heap::alloc` makes no progress on a cyclic chain, so no
amount of fuel completes it: inside a single `Syscall`-malloc (or `Alloc`)
instruction the Rust `while` loop re-reads the same block forever and the
10,000,000-instruction budget is never consulted. -/
theorem alloc_cycle_no_fuel_suffices :
    ∀ fuel, Heap.allocGo ⟨0x8000, 0x4000⟩ segMA 1 fuel 0x8000 memC8 =
      .error .fuel := by
  intro fuel
  induction fuel with
  | zero => rfl
  | succ f ih =>
    rw [show Heap.allocGo ⟨0x8000, 0x4000⟩ segMA 1 (f + 1) 0x8000 memC8 =
      Heap.allocGo ⟨0x8000, 0x4000⟩ segMA 1 f 0x8000 memC8 from rfl]
    exact ih

end Alya
